import Mathlib

/-!
Shallow embedding of the booking core of the `oldvine_cms` repository.

Times are modelled as integer milliseconds since the epoch (the value of a
JS `Date`); monetary values as exact rationals (the spec mandates
fixed-point decimal arithmetic).  External effects — the clock (`now`),
the random generator feeding booking-number/confirmation-code generation,
the Stripe payment and refund calls, e-mail — enter the handlers as
explicit parameters, so each route handler of `src/routes/bookings.js`
becomes a pure function from a state and its environment inputs to a
response together with the post-state.
-/

deriving instance DecidableEq for Except

namespace OldVine

/-- Room operational status, from the `status` enum of
`src/models/Room.js` (`Available`, `Occupied`, `Out of Order`,
`Maintenance`). -/
inductive RoomStatus where
  | available
  | occupied
  | outOfOrder
  | maintenance
deriving DecidableEq, Repr

/-- Housekeeping status of a room, from the `cleaningStatus` enum of
`src/models/Room.js`. -/
inductive CleaningStatus where
  | clean
  | dirty
  | inProgress
  | inspected
deriving DecidableEq, Repr

/-- One entry of a room's `seasonalPricing` array
(`src/models/Room.js`): a date range and a price multiplier. -/
structure SeasonalPricing where
  startDate : Int
  endDate : Int
  priceMultiplier : ℚ
deriving DecidableEq, Repr

/-- The fields of a room record (`src/models/Room.js`) that the booking
core reads or writes. -/
structure Room where
  id : Nat
  maxOccupancy : Int
  basePrice : ℚ
  seasonalPricing : List SeasonalPricing
  status : RoomStatus
  isActive : Bool
  cleaningStatus : CleaningStatus
  lastCleaning : Option Int
deriving DecidableEq, Repr

/-- Booking lifecycle status, from the `status` enum of the booking
schema (`Pending`, `Confirmed`, `Checked In`, `Checked Out`,
`Cancelled`, `No Show`). -/
inductive BookingStatus where
  | pending
  | confirmed
  | checkedIn
  | checkedOut
  | cancelled
  | noShow
deriving DecidableEq, Repr

/-- Payment status, from the `paymentStatus` enum of the booking schema
(`Pending`, `Paid`, `Partially Paid`, `Refunded`, `Failed`). -/
inductive PaymentStatus where
  | pending
  | paid
  | partiallyPaid
  | refunded
  | failed
deriving DecidableEq, Repr

/-- The fields of a booking document (booking schema in the models) that
the booking routes read or write. -/
structure Booking where
  id : Nat
  bookingNumber : String
  confirmationCode : String
  guest : Nat
  room : Nat
  checkInDate : Int
  checkOutDate : Int
  adults : Int
  children : Int
  roomRate : ℚ
  numberOfNights : Int
  subtotal : ℚ
  taxes : ℚ
  totalAmount : ℚ
  paymentStatus : PaymentStatus
  stripePaymentIntentId : Option String
  status : BookingStatus
  specialRequests : Option String
  cancellationReason : Option String
  cancellationDate : Option Int
  cancellationFee : ℚ
  refundAmount : ℚ
  actualCheckInTime : Option Int
  actualCheckOutTime : Option Int
deriving DecidableEq, Repr

/-- State of the persistent store as the booking routes see it: the room
catalog and the collection of booking documents.  (Guests are also
stored, but no booking route reads a guest field back into a decision,
so the guest collection is not part of the modelled state.) -/
structure State where
  rooms : List Room
  bookings : List Booking
deriving DecidableEq, Repr

/-- `Room.findById`. -/
def findRoom (st : State) (roomId : Nat) : Option Room :=
  st.rooms.find? (fun r => r.id == roomId)

/-- `Booking.findById`. -/
def findBookingById (st : State) (bookingId : Nat) : Option Booking :=
  st.bookings.find? (fun b => b.id == bookingId)

/-- A booking status counts against availability iff it is `Confirmed`
or `Checked In` — the `status: { $in: ['Confirmed', 'Checked In'] }`
clause of the conflict queries. -/
def blocking (s : BookingStatus) : Bool :=
  s == BookingStatus.confirmed || s == BookingStatus.checkedIn

/-- The conflict predicate of the Mongo queries in
`roomSchema.methods.isAvailable` and `roomSchema.statics.findAvailable`:
same room, blocking status, and half-open interval overlap
`checkInDate < checkOut && checkOutDate > checkIn`. -/
def conflictsWith (roomId : Nat) (checkIn checkOut : Int) (b : Booking) : Bool :=
  b.room == roomId && blocking b.status &&
    (b.checkInDate < checkOut && b.checkOutDate > checkIn)

/-- `roomSchema.methods.isAvailable` (src/models/Room.js:222-237):
`!conflictingBooking && this.status === 'Available' && this.isActive`. -/
def isAvailable (room : Room) (bookings : List Booking)
    (checkIn checkOut : Int) : Bool :=
  !(bookings.any (conflictsWith room.id checkIn checkOut)) &&
    room.status == RoomStatus.available && room.isActive

/-- `roomSchema.statics.findAvailable` (src/models/Room.js:178-219): the
aggregation keeps rooms that are `Available`, active, of sufficient
occupancy, and have an empty `conflictingBookings` lookup. -/
def findAvailable (st : State) (checkIn checkOut : Int) (guests : Int) :
    List Room :=
  ((st.rooms.filter (fun r =>
      r.status == RoomStatus.available && r.isActive &&
        guests ≤ r.maxOccupancy)).filter
    (fun r => !(st.bookings.any (conflictsWith r.id checkIn checkOut))))

/-- Error kinds surfaced by the route handlers (each corresponds to one
of the early-return `res.status(4xx)` branches, or to a Mongo
duplicate-key failure on save). -/
inductive Err where
  | validation
  | notFound
  | occupancyExceeded
  | notAvailable
  | paymentFailed
  | invalidTransition
  | cannotCancel
  | refundFailed
  | duplicateKey
deriving DecidableEq, Repr

/-- A handler run: the HTTP-level response together with the state of
the store after the handler returns.  Early-return branches leave the
state untouched. -/
structure Reply (α : Type) where
  resp : Except Err α
  state : State

/-- `roomSchema.virtual('currentPrice')` (src/models/Room.js:154-163):
the first seasonal-pricing entry whose date range contains `now`
(evaluation time) scales the base price; otherwise the base price. -/
def currentPrice (room : Room) (now : Int) : ℚ :=
  match room.seasonalPricing.find? (fun p => p.startDate ≤ now && now ≤ p.endDate) with
  | some p => room.basePrice * p.priceMultiplier
  | none => room.basePrice

/-- `Math.ceil((checkOut - checkIn) / (1000 * 60 * 60 * 24))`, exactly
on rationals (`Rat.ceil` agrees with the mathematical ceiling `⌈⬝⌉`;
see `rat_ceil_eq_ceil` below). -/
def numberOfNightsCalc (checkIn checkOut : Int) : Int :=
  Rat.ceil (((checkOut - checkIn : Int) : ℚ) / (1000 * 60 * 60 * 24))

/-- The 12% tax rate hardcoded in both creation routes
(`const taxes = subtotal * 0.12`). -/
def taxRate : ℚ := 0.12

/-- Randomness and clock consumed by the `pre('validate')` hook of the
booking schema: the current year, the draw behind
`Math.floor(100000 + Math.random() * 900000)` (reduced mod 900000), and
the eight draws behind `Math.floor(Math.random() * chars.length)`. -/
structure GenInput where
  year : Int
  r6 : Nat
  codeDraws : Fin 8 → Nat
deriving Repr

/-- Booking-number generation: `OVH` + year + random six digits. -/
def genBookingNumber (g : GenInput) : String :=
  "OVH" ++ toString g.year ++ toString (100000 + g.r6 % 900000)

/-- The alphanumeric alphabet of the confirmation-code generator. -/
def confChars : List Char := "ABCDEFGHIJKLMNOPQRSTUVWXYZ0123456789".toList

/-- Confirmation-code generation: eight characters drawn from
`confChars`. -/
def genConfirmationCode (g : GenInput) : String :=
  String.mk ((List.finRange 8).map (fun i => confChars.getD (g.codeDraws i % 36) 'A'))

/-- First block of the `pre('validate')` hook:
`if (!this.bookingNumber) { ... }`. -/
def fillBookingNumber (b : Booking) (g : GenInput) : Booking :=
  if b.bookingNumber = "" then { b with bookingNumber := genBookingNumber g } else b

/-- Second block of the `pre('validate')` hook:
`if (!this.confirmationCode) { ... }`. -/
def fillConfirmationCode (b : Booking) (g : GenInput) : Booking :=
  if b.confirmationCode = "" then { b with confirmationCode := genConfirmationCode g } else b

/-- Third block of the `pre('validate')` hook: compute `numberOfNights`
from `Math.abs(checkOutDate - checkInDate)` when it is unset. -/
def fillNights (b : Booking) : Booking :=
  if b.numberOfNights = 0 then
    { b with numberOfNights :=
        Rat.ceil ((|b.checkOutDate - b.checkInDate| : ℚ) / (1000 * 60 * 60 * 24)) }
  else b

/-- The `bookingSchema.pre('validate')` hook: fill `bookingNumber` and
`confirmationCode` when absent, and `numberOfNights` when unset.  No
store lookup occurs: the generated values depend only on the document
and the random draws. -/
def preValidate (b : Booking) (g : GenInput) : Booking :=
  fillNights (fillConfirmationCode (fillBookingNumber b g) g)

/-- `booking.save()` for a new document: the unique indexes on
`bookingNumber` and `confirmationCode` reject a duplicate; otherwise the
document is appended to the collection. -/
def saveNewBooking (st : State) (b : Booking) : Except Err State :=
  if st.bookings.any (fun x =>
      x.bookingNumber == b.bookingNumber || x.confirmationCode == b.confirmationCode)
  then Except.error Err.duplicateKey
  else Except.ok { st with bookings := st.bookings ++ [b] }

/-- The request body of the two creation routes, after guest
find-or-create resolved `guestInfo` to a guest id. -/
structure BookingInput where
  guestId : Nat
  roomId : Nat
  checkInDate : Int
  checkOutDate : Int
  adults : Int
  children : Int
  specialRequests : Option String
deriving DecidableEq, Repr

/-- The express-validator guards shared by both creation routes:
`adults` an integer ≥ 1, `children` (when given) ≥ 0. -/
def validOccupancyInput (inp : BookingInput) : Bool :=
  1 ≤ inp.adults && 0 ≤ inp.children

/-- The document constructed by `POST /api/bookings/request`
(src/routes/bookings.js:88-104) before the pre-validate hook runs:
pricing snapshot, `status: 'Pending'`, `paymentStatus: 'Pending'`. -/
def buildRequestBooking (st : State) (inp : BookingInput) (now : Int) (room : Room) :
    Booking :=
  let nights := numberOfNightsCalc inp.checkInDate inp.checkOutDate
  let rate := currentPrice room now
  let sub := rate * (nights : ℚ)
  let tax := sub * taxRate
  { id := st.bookings.length
    bookingNumber := ""
    confirmationCode := ""
    guest := inp.guestId
    room := inp.roomId
    checkInDate := inp.checkInDate
    checkOutDate := inp.checkOutDate
    adults := inp.adults
    children := inp.children
    roomRate := rate
    numberOfNights := nights
    subtotal := sub
    taxes := tax
    totalAmount := sub + tax
    paymentStatus := PaymentStatus.pending
    stripePaymentIntentId := none
    status := BookingStatus.pending
    specialRequests := inp.specialRequests
    cancellationReason := none
    cancellationDate := none
    cancellationFee := 0
    refundAmount := 0
    actualCheckInTime := none
    actualCheckOutTime := none }

/-- `POST /api/bookings/request` (src/routes/bookings.js:17-118):
validate dates, load the room, check occupancy and availability,
compute the pricing snapshot, and persist a `Pending` booking. -/
def createBookingRequest (st : State) (inp : BookingInput) (now : Int)
    (g : GenInput) : Reply Booking :=
  if ¬ validOccupancyInput inp then ⟨Except.error Err.validation, st⟩
  else if inp.checkOutDate ≤ inp.checkInDate then ⟨Except.error Err.validation, st⟩
  else if inp.checkInDate < now then ⟨Except.error Err.validation, st⟩
  else
    match findRoom st inp.roomId with
    | none => ⟨Except.error Err.notFound, st⟩
    | some room =>
      if ¬ room.isActive then ⟨Except.error Err.notFound, st⟩
      else if room.maxOccupancy < inp.adults + inp.children then
        ⟨Except.error Err.occupancyExceeded, st⟩
      else if ¬ isAvailable room st.bookings inp.checkInDate inp.checkOutDate then
        ⟨Except.error Err.notAvailable, st⟩
      else
        let b := preValidate (buildRequestBooking st inp now room) g
        match saveNewBooking st b with
        | Except.error e => ⟨Except.error e, st⟩
        | Except.ok st2 => ⟨Except.ok b, st2⟩

/-- Outcome of `stripe.paymentIntents.create`: the call may throw, or
return an intent with a status (`succeeded` or not) and an id. -/
inductive PaymentOutcome where
  | stripeFailure
  | intent (succeeded : Bool) (intentId : String)
deriving DecidableEq, Repr

/-- `POST /api/bookings` (src/routes/bookings.js:124-316): same
validations and pricing as the request route, then a Stripe payment
intent; the booking is persisted `Confirmed`/`Paid` when the intent
succeeded, `Pending` otherwise, carrying the intent id. -/
def createBooking (st : State) (inp : BookingInput) (now : Int)
    (g : GenInput) (pay : PaymentOutcome) : Reply Booking :=
  if ¬ validOccupancyInput inp then ⟨Except.error Err.validation, st⟩
  else if inp.checkOutDate ≤ inp.checkInDate then ⟨Except.error Err.validation, st⟩
  else if inp.checkInDate < now then ⟨Except.error Err.validation, st⟩
  else
    match findRoom st inp.roomId with
    | none => ⟨Except.error Err.notFound, st⟩
    | some room =>
      if ¬ room.isActive then ⟨Except.error Err.notFound, st⟩
      else if room.maxOccupancy < inp.adults + inp.children then
        ⟨Except.error Err.occupancyExceeded, st⟩
      else if ¬ isAvailable room st.bookings inp.checkInDate inp.checkOutDate then
        ⟨Except.error Err.notAvailable, st⟩
      else
        match pay with
        | PaymentOutcome.stripeFailure => ⟨Except.error Err.paymentFailed, st⟩
        | PaymentOutcome.intent succeeded intentId =>
          let base := buildRequestBooking st inp now room
          let b := preValidate
            { base with
                paymentStatus :=
                  if succeeded then PaymentStatus.paid else PaymentStatus.pending
                stripePaymentIntentId := some intentId
                status :=
                  if succeeded then BookingStatus.confirmed else BookingStatus.pending } g
          match saveNewBooking st b with
          | Except.error e => ⟨Except.error e, st⟩
          | Except.ok st2 => ⟨Except.ok b, st2⟩

/-- Replace the booking with the given id (mongoose `booking.save()` on
a loaded document). -/
def updateBooking (st : State) (b : Booking) : State :=
  { st with bookings := st.bookings.map (fun x => if x.id == b.id then b else x) }

/-- Replace the room with the given id (`room.save()`). -/
def updateRoom (st : State) (r : Room) : State :=
  { st with rooms := st.rooms.map (fun x => if x.id == r.id then r else x) }

/-- `PUT /api/bookings/:id/checkin` (src/routes/bookings.js:587-628):
only a `Confirmed` booking may check in; on success the booking becomes
`Checked In` with the actual check-in time, and the room `Occupied`. -/
def checkinBooking (st : State) (bookingId : Nat) (now : Int) : Reply Booking :=
  match findBookingById st bookingId with
  | none => ⟨Except.error Err.notFound, st⟩
  | some b =>
    if b.status ≠ BookingStatus.confirmed then ⟨Except.error Err.invalidTransition, st⟩
    else
      let b2 := { b with status := BookingStatus.checkedIn, actualCheckInTime := some now }
      let st2 := updateBooking st b2
      let st3 :=
        match findRoom st2 b.room with
        | none => st2
        | some r => updateRoom st2 { r with status := RoomStatus.occupied }
      ⟨Except.ok b2, st3⟩

/-- `PUT /api/bookings/:id/checkout` (src/routes/bookings.js:633-676):
only a `Checked In` booking may check out; on success the booking
becomes `Checked Out` and the room `Available`, flagged dirty. -/
def checkoutBooking (st : State) (bookingId : Nat) (now : Int) : Reply Booking :=
  match findBookingById st bookingId with
  | none => ⟨Except.error Err.notFound, st⟩
  | some b =>
    if b.status ≠ BookingStatus.checkedIn then ⟨Except.error Err.invalidTransition, st⟩
    else
      let b2 := { b with status := BookingStatus.checkedOut, actualCheckOutTime := some now }
      let st2 := updateBooking st b2
      let st3 :=
        match findRoom st2 b.room with
        | none => st2
        | some r => updateRoom st2
            { r with status := RoomStatus.available,
                     cleaningStatus := CleaningStatus.dirty,
                     lastCleaning := some now }
      ⟨Except.ok b2, st3⟩

/-- `(checkInDate - now) / (1000 * 60 * 60)`, exactly on rationals. -/
def hoursUntilCheckIn (b : Booking) (now : Int) : ℚ :=
  ((b.checkInDate - now : Int) : ℚ) / (1000 * 60 * 60)

/-- `bookingSchema.methods.canBeCancelled`: `Confirmed` and strictly
more than 24 hours before check-in. -/
def canBeCancelled (b : Booking) (now : Int) : Bool :=
  b.status == BookingStatus.confirmed && 24 < hoursUntilCheckIn b now

/-- `bookingSchema.methods.calculateCancellationFee`: 0 above 48 hours,
25% of `totalAmount` above 24 hours, 50% otherwise. -/
def calculateCancellationFee (b : Booking) (now : Int) : ℚ :=
  let h := hoursUntilCheckIn b now
  if 48 < h then 0
  else if 24 < h then b.totalAmount * 0.25
  else b.totalAmount * 0.50

/-- `PUT /api/bookings/:bookingNumber/cancel`
(src/routes/bookings.js:363-468): locate the booking by booking number
and confirmation code, apply the cancellation guard, compute fee and
refund, run the Stripe refund when a payment intent is stored and the
refund is positive (`refundOk` is that call's outcome), then mark the
booking cancelled.  The response carries `(fee, refund)`. -/
def cancelBooking (st : State) (bookingNumber confirmationCode : String)
    (reason : Option String) (now : Int) (refundOk : Bool) : Reply (ℚ × ℚ) :=
  match st.bookings.find? (fun b =>
      b.bookingNumber == bookingNumber && b.confirmationCode == confirmationCode) with
  | none => ⟨Except.error Err.notFound, st⟩
  | some b =>
    if ¬ canBeCancelled b now then ⟨Except.error Err.cannotCancel, st⟩
    else
      let fee := calculateCancellationFee b now
      let refund := b.totalAmount - fee
      if b.stripePaymentIntentId.isSome && 0 < refund && ¬ refundOk then
        ⟨Except.error Err.refundFailed, st⟩
      else
        let b2 := { b with
          status := BookingStatus.cancelled
          cancellationReason := reason
          cancellationDate := some now
          cancellationFee := fee
          refundAmount := refund
          paymentStatus := if 0 < refund then PaymentStatus.refunded else PaymentStatus.paid }
        ⟨Except.ok (fee, refund), updateBooking st b2⟩

/-- `GET /api/bookings/:bookingNumber` (src/routes/bookings.js:321-358):
with a confirmation code, look the booking up by both fields; without
one, look it up by booking number alone.  The route declares itself
`Public (with confirmation code) / Private`, but no auth middleware is
mounted, so the `authenticated` flag of the caller is never consulted
by the body. -/
def getBooking (st : State) (bookingNumber : String)
    (confirmationCode : Option String) (authenticated : Bool) : Except Err Booking :=
  match confirmationCode with
  | some code =>
    match st.bookings.find? (fun b =>
        b.bookingNumber == bookingNumber && b.confirmationCode == code) with
    | none => Except.error Err.notFound
    | some b => Except.ok b
  | none =>
    match st.bookings.find? (fun b => b.bookingNumber == bookingNumber) with
    | none => Except.error Err.notFound
    | some b => Except.ok b

/-- The status filter of `bookingSchema.statics.generateRevenueReport`:
`status: { $in: ['Confirmed', 'Checked In', 'Checked Out'] }`. -/
def reportStatus (s : BookingStatus) : Bool :=
  s == BookingStatus.confirmed || s == BookingStatus.checkedIn ||
    s == BookingStatus.checkedOut

/-- The `$match` stage of the revenue aggregation: report status and
`checkInDate: { $gte: startDate, $lte: endDate }`. -/
def matchesReport (startDate endDate : Int) (b : Booking) : Bool :=
  reportStatus b.status && startDate ≤ b.checkInDate && b.checkInDate ≤ endDate

/-- The UTC calendar day of an epoch instant, as a day index.  The
aggregation groups by `($year, $month, $dayOfMonth)` of `checkInDate`
and sorts these triples lexicographically; the triple of an instant is a
strictly monotone function of `⌊t / 86400000⌋`, so grouping and
ordering by the day index is the same grouping and ordering. -/
def dayKey (t : Int) : Int := Int.fdiv t 86400000

/-- One group produced by the revenue aggregation. -/
structure RevenueRecord where
  period : Int
  totalRevenue : ℚ
  bookingsCount : Nat
  averageRate : ℚ
deriving DecidableEq, Repr

/-- Insert a key into a strictly ascending list of keys, keeping it
strictly ascending (used to realise the `$group` + `$sort` stages). -/
def insertKey (k : Int) : List Int → List Int
  | [] => [k]
  | a :: as =>
    if k < a then k :: a :: as
    else if k = a then a :: as
    else a :: insertKey k as

/-- The distinct keys of a list, in ascending order. -/
def sortedKeys (l : List Int) : List Int := l.foldr insertKey []

/-- `bookingSchema.statics.generateRevenueReport(startDate, endDate)`:
match on status and check-in window, group by the calendar day of
`checkInDate` with summed `totalAmount`, a count, and the average
`roomRate`, sorted by day ascending. -/
def generateRevenueReport (bookings : List Booking) (startDate endDate : Int) :
    List RevenueRecord :=
  let matched := bookings.filter (matchesReport startDate endDate)
  (sortedKeys (matched.map (fun b => dayKey b.checkInDate))).map (fun k =>
    let grp := matched.filter (fun b => dayKey b.checkInDate == k)
    { period := k
      totalRevenue := (grp.map Booking.totalAmount).sum
      bookingsCount := grp.length
      averageRate := (grp.map Booking.roomRate).sum / (grp.length : ℚ) })

/-- The whole-window summary computed by
`GET /api/bookings/analytics/revenue` (src/routes/bookings.js:681-714). -/
structure RevenueSummary where
  totalRevenue : ℚ
  totalBookings : Nat
  averageBookingValue : ℚ
deriving DecidableEq, Repr

/-- The analytics route: the per-day report plus reduced totals, with
`averageBookingValue = totalBookings > 0 ? totalRevenue / totalBookings : 0`. -/
def revenueAnalytics (bookings : List Booking) (startDate endDate : Int) :
    List RevenueRecord × RevenueSummary :=
  let revenueData := generateRevenueReport bookings startDate endDate
  let totalRevenue := (revenueData.map RevenueRecord.totalRevenue).sum
  let totalBookings := (revenueData.map RevenueRecord.bookingsCount).sum
  (revenueData,
    { totalRevenue := totalRevenue
      totalBookings := totalBookings
      averageBookingValue :=
        if 0 < totalBookings then totalRevenue / (totalBookings : ℚ) else 0 })

/-- The booking operations of `src/routes/bookings.js`, with their
environment inputs (clock, randomness, payment/refund outcomes).
Confirmation happens only as the payment-success branch of the paid
creation; no other code in the repository moves a booking to
`Confirmed`. -/
inductive Op where
  | request (inp : BookingInput) (now : Int) (g : GenInput)
  | create (inp : BookingInput) (now : Int) (g : GenInput) (pay : PaymentOutcome)
  | checkin (bookingId : Nat) (now : Int)
  | checkout (bookingId : Nat) (now : Int)
  | cancel (bookingNumber confirmationCode : String) (reason : Option String)
      (now : Int) (refundOk : Bool)

/-- The store state after serving one request (sequential execution). -/
def step (st : State) : Op → State
  | Op.request inp now g => (createBookingRequest st inp now g).state
  | Op.create inp now g pay => (createBooking st inp now g pay).state
  | Op.checkin bookingId now => (checkinBooking st bookingId now).state
  | Op.checkout bookingId now => (checkoutBooking st bookingId now).state
  | Op.cancel n c r now ok => (cancelBooking st n c r now ok).state

/-- Sequential execution of a list of requests. -/
def run (st : State) (ops : List Op) : State := ops.foldl step st

/-- Two bookings violate nothing unless they are on the same room, both
in a blocking status, and their half-open stay intervals overlap. -/
def disjointR (a b : Booking) : Prop :=
  a.room = b.room → blocking a.status = true → blocking b.status = true →
    ¬ (a.checkInDate < b.checkOutDate ∧ b.checkInDate < a.checkOutDate)

/-- The store invariant: booking ids are distinct and below the
collection size (they are assigned sequentially on insert), and the
blocking reservations of any one room have pairwise-disjoint stay
intervals. -/
def StoreInv (st : State) : Prop :=
  (st.bookings.map Booking.id).Nodup ∧
    (∀ b ∈ st.bookings, b.id < st.bookings.length) ∧
    st.bookings.Pairwise disjointR

/-! ## Concrete store snapshots used by the closed theorems -/

/-- A bookable demo room: active, `Available`, base price $100. -/
def demoRoom : Room :=
  { id := 1, maxOccupancy := 4, basePrice := 100, seasonalPricing := []
    status := RoomStatus.available, isActive := true
    cleaningStatus := CleaningStatus.clean, lastCleaning := none }

/-- Randomness for the generation hook: year 2025, six-digit draw
123456, confirmation code `AAAAAAAA`. -/
def demoGen : GenInput := { year := 2025, r6 := 23456, codeDraws := fun _ => 0 }

/-- A second, different randomness input (code `BBBBBBBB`). -/
def demoGen2 : GenInput := { year := 2025, r6 := 111111, codeDraws := fun _ => 1 }

/-- A three-night booking request for `demoRoom`: days 10 to 13. -/
def demoInp : BookingInput :=
  { guestId := 7, roomId := 1, checkInDate := 10 * 86400000, checkOutDate := 13 * 86400000
    adults := 2, children := 0, specialRequests := none }

/-- The booking days 13 to 15: touches `demoInp` at the boundary. -/
def demoInp2 : BookingInput :=
  { guestId := 8, roomId := 1, checkInDate := 13 * 86400000, checkOutDate := 15 * 86400000
    adults := 1, children := 1, specialRequests := none }

/-- Store with the demo room and no bookings. -/
def demoState : State := { rooms := [demoRoom], bookings := [] }

/-- The booking persisted by a successful demo request. -/
def demoCreated : Booking := preValidate (buildRequestBooking demoState demoInp 0 demoRoom) demoGen

/-- A confirmed, unpaid demo booking 30 hours before its check-in,
priced at total 336 (the end-to-end scenario). -/
def demoCancelBooking : Booking :=
  { id := 0, bookingNumber := "OVH2025000001", confirmationCode := "CODE1234"
    guest := 7, room := 1
    checkInDate := 30 * 3600000, checkOutDate := 30 * 3600000 + 3 * 86400000
    adults := 2, children := 0
    roomRate := 100, numberOfNights := 3, subtotal := 300, taxes := 36, totalAmount := 336
    paymentStatus := PaymentStatus.pending, stripePaymentIntentId := none
    status := BookingStatus.confirmed, specialRequests := none
    cancellationReason := none, cancellationDate := none
    cancellationFee := 0, refundAmount := 0
    actualCheckInTime := none, actualCheckOutTime := none }

/-- Store containing `demoCancelBooking`. -/
def demoCancelState : State := { rooms := [demoRoom], bookings := [demoCancelBooking] }

/-- A paid, confirmed demo booking (Stripe payment intent stored) 30
hours before check-in, used for the refund-failure scenario. -/
def demoPaidBooking : Booking :=
  { demoCancelBooking with
      id := 1
      bookingNumber := "OVH2025000002"
      confirmationCode := "CODE5678"
      paymentStatus := PaymentStatus.paid
      stripePaymentIntentId := some "pi_live_1" }

/-- A pending demo booking, not yet confirmed. -/
def demoPendingBooking : Booking :=
  { demoCancelBooking with
      id := 2
      bookingNumber := "OVH2025000003"
      confirmationCode := "CODE9999"
      status := BookingStatus.pending }

/-- A store with a pending and a paid booking. -/
def demoGuardState : State :=
  { rooms := [demoRoom], bookings := [demoPendingBooking, demoPaidBooking] }

/-- A room with a seasonal override (multiplier 2 on days 0–1). -/
def demoSeasonRoom : Room :=
  { demoRoom with
      seasonalPricing := [{ startDate := 0, endDate := 86400000, priceMultiplier := 2 }] }

/-- Store with the seasonal room and no bookings. -/
def demoSeasonState : State := { rooms := [demoSeasonRoom], bookings := [] }

/-- A request equal to `demoInp` in dates but differing in guest and
special requests. -/
def demoInpOther : BookingInput :=
  { demoInp with guestId := 99, specialRequests := some "late arrival" }

/-- The booking persisted for `demoInpOther` under different randomness. -/
def demoCreatedOther : Booking :=
  preValidate (buildRequestBooking demoState demoInpOther 0 demoRoom) demoGen2

/-- A stored booking whose booking number collides with the value the
generation hook produces from `demoGen`; it lives on another room so the
availability check passes. -/
def demoDupBooking : Booking :=
  { demoCancelBooking with
      bookingNumber := "OVH2025123456"
      confirmationCode := "ZZZZZZZZ"
      room := 2 }

/-- Store containing the colliding booking. -/
def demoDupState : State := { rooms := [demoRoom], bookings := [demoDupBooking] }

/-- Reservations for the revenue demo: one confirmed check-in on day 1
($336 at rate 100), one checked-out on day 3 ($100 at rate 50), one
cancelled on day 2 that must not be counted. -/
def demoRevBookings : List Booking :=
  [{ demoCancelBooking with
      id := 10, bookingNumber := "OVH2025000010", confirmationCode := "CODEAAAA",
      checkInDate := 3 * 86400000, totalAmount := 100, roomRate := 50,
      status := BookingStatus.checkedOut },
   { demoCancelBooking with
      id := 11, bookingNumber := "OVH2025000011", confirmationCode := "CODEBBBB",
      checkInDate := 1 * 86400000, totalAmount := 336, roomRate := 100,
      status := BookingStatus.confirmed },
   { demoCancelBooking with
      id := 12, bookingNumber := "OVH2025000012", confirmationCode := "CODECCCC",
      checkInDate := 2 * 86400000, totalAmount := 999, roomRate := 99,
      status := BookingStatus.cancelled }]

/-! ## Helper lemmas about the embedded operations -/
theorem rat_ceil_eq_ceil (q : ℚ) : (Rat.ceil q : ℤ) = ⌈q⌉ := by
  rw [Rat.ceil]
  split
  · rename_i h
    have hq : (q.num : ℚ) = q := by
      conv_rhs => rw [← Rat.num_div_den q]
      rw [h]
      simp
    rw [← hq, Int.ceil_intCast]
    simp
  · rename_i h
    have hfl : ⌊q⌋ = q.num / q.den := Rat.floor_def
    have hne : (⌊q⌋ : ℚ) ≠ q := by
      intro heq
      have : q.den = 1 := by
        rw [← heq] at h ⊢
        simp at h ⊢
      exact h this
    have h1 : (⌊q⌋ : ℚ) < q := lt_of_le_of_ne (Int.floor_le q) hne
    have h2 : q < ⌊q⌋ + 1 := Int.lt_floor_add_one q
    rw [← hfl]
    symm
    rw [Int.ceil_eq_iff]
    constructor
    · push_cast
      simpa using h1
    · push_cast
      exact le_of_lt h2

theorem preValidate_proj (b : Booking) (g : GenInput) :
    (preValidate b g).room = b.room ∧
    (preValidate b g).checkInDate = b.checkInDate ∧
    (preValidate b g).checkOutDate = b.checkOutDate ∧
    (preValidate b g).status = b.status ∧
    (preValidate b g).roomRate = b.roomRate ∧
    (preValidate b g).subtotal = b.subtotal ∧
    (preValidate b g).taxes = b.taxes ∧
    (preValidate b g).totalAmount = b.totalAmount ∧
    (preValidate b g).id = b.id ∧
    (preValidate b g).guest = b.guest ∧
    (preValidate b g).paymentStatus = b.paymentStatus ∧
    (preValidate b g).stripePaymentIntentId = b.stripePaymentIntentId := by
  unfold preValidate fillNights fillConfirmationCode fillBookingNumber
  split <;> split <;> split <;> simp_all

theorem preValidate_nights (b : Booking) (g : GenInput) (h : b.numberOfNights ≠ 0) :
    (preValidate b g).numberOfNights = b.numberOfNights := by
  unfold preValidate fillNights fillConfirmationCode fillBookingNumber
  split <;> split <;> simp_all

theorem saveNewBooking_ok {st st2 : State} {b : Booking}
    (h : saveNewBooking st b = Except.ok st2) :
    st2 = { st with bookings := st.bookings ++ [b] } := by
  unfold saveNewBooking at h
  split at h
  · exact absurd h (by simp)
  · simpa using h.symm

theorem createBookingRequest_ok (st : State) (inp : BookingInput) (now : Int) (g : GenInput)
    (b : Booking) (h : (createBookingRequest st inp now g).resp = Except.ok b) :
    ∃ room, findRoom st inp.roomId = some room ∧ room.isActive = true ∧
      isAvailable room st.bookings inp.checkInDate inp.checkOutDate = true ∧
      inp.checkInDate < inp.checkOutDate ∧ now ≤ inp.checkInDate ∧
      validOccupancyInput inp = true ∧
      b = preValidate (buildRequestBooking st inp now room) g ∧
      (createBookingRequest st inp now g).state = { st with bookings := st.bookings ++ [b] } := by
  revert h
  generalize hr : createBookingRequest st inp now g = r
  unfold createBookingRequest at hr
  split at hr
  · intro h
    rw [← hr] at h
    exact absurd h (by simp)
  · split at hr
    · intro h
      rw [← hr] at h
      exact absurd h (by simp)
    · split at hr
      · intro h
        rw [← hr] at h
        exact absurd h (by simp)
      · split at hr
        · intro h
          rw [← hr] at h
          exact absurd h (by simp)
        · rename_i room hroom
          split at hr
          · intro h
            rw [← hr] at h
            exact absurd h (by simp)
          · split at hr
            · intro h
              rw [← hr] at h
              exact absurd h (by simp)
            · split at hr
              · intro h
                rw [← hr] at h
                exact absurd h (by simp)
              · rename_i hvalid hdates hpast hx hactive hcap havail
                simp only [] at hr
                split at hr
                · intro h
                  rw [← hr] at h
                  exact absurd h (by simp)
                · rename_i st2 hsave
                  intro h
                  rw [← hr] at h
                  simp only [Except.ok.injEq] at h
                  subst h
                  refine ⟨room, hroom, by simpa using hactive, by simpa using havail,
                    by omega, by omega, by simpa using hvalid, rfl, ?_⟩
                  rw [← hr]
                  simpa using saveNewBooking_ok hsave

theorem createBooking_ok (st : State) (inp : BookingInput) (now : Int) (g : GenInput)
    (pay : PaymentOutcome) (b : Booking)
    (h : (createBooking st inp now g pay).resp = Except.ok b) :
    ∃ room succeeded intentId, findRoom st inp.roomId = some room ∧ room.isActive = true ∧
      isAvailable room st.bookings inp.checkInDate inp.checkOutDate = true ∧
      inp.checkInDate < inp.checkOutDate ∧ now ≤ inp.checkInDate ∧
      validOccupancyInput inp = true ∧
      pay = PaymentOutcome.intent succeeded intentId ∧
      b = preValidate { buildRequestBooking st inp now room with
            paymentStatus := if succeeded then PaymentStatus.paid else PaymentStatus.pending
            stripePaymentIntentId := some intentId
            status := if succeeded then BookingStatus.confirmed else BookingStatus.pending } g ∧
      (createBooking st inp now g pay).state = { st with bookings := st.bookings ++ [b] } := by
  revert h
  generalize hr : createBooking st inp now g pay = r
  unfold createBooking at hr
  split at hr
  · intro h
    rw [← hr] at h
    exact absurd h (by simp)
  · split at hr
    · intro h
      rw [← hr] at h
      exact absurd h (by simp)
    · split at hr
      · intro h
        rw [← hr] at h
        exact absurd h (by simp)
      · split at hr
        · intro h
          rw [← hr] at h
          exact absurd h (by simp)
        · rename_i room hroom
          split at hr
          · intro h
            rw [← hr] at h
            exact absurd h (by simp)
          · split at hr
            · intro h
              rw [← hr] at h
              exact absurd h (by simp)
            · split at hr
              · intro h
                rw [← hr] at h
                exact absurd h (by simp)
              · rename_i hvalid hdates hpast hx hactive hcap havail
                split at hr
                · intro h
                  rw [← hr] at h
                  exact absurd h (by simp)
                · rename_i succeeded intentId
                  simp only [] at hr
                  split at hr
                  · intro h
                    rw [← hr] at h
                    exact absurd h (by simp)
                  · rename_i st2 hsave
                    intro h
                    rw [← hr] at h
                    simp only [Except.ok.injEq] at h
                    subst h
                    refine ⟨room, succeeded, intentId, hroom, by simpa using hactive,
                      by simpa using havail, by omega, by omega, by simpa using hvalid,
                      rfl, rfl, ?_⟩
                    rw [← hr]
                    simpa using saveNewBooking_ok hsave

theorem currentPrice_found {room : Room} {now : Int}
    (h : ∃ p ∈ room.seasonalPricing, p.startDate ≤ now ∧ now ≤ p.endDate) :
    ∃ p ∈ room.seasonalPricing, (p.startDate ≤ now ∧ now ≤ p.endDate) ∧
      currentPrice room now = room.basePrice * p.priceMultiplier := by
  unfold currentPrice
  have hsome : (room.seasonalPricing.find? (fun p => p.startDate ≤ now && now ≤ p.endDate)).isSome := by
    rw [List.find?_isSome]
    obtain ⟨p, hp, h1, h2⟩ := h
    exact ⟨p, hp, by simp [h1, h2]⟩
  obtain ⟨p, hp⟩ := Option.isSome_iff_exists.mp hsome
  refine ⟨p, List.mem_of_find?_eq_some hp, ?_, by rw [hp]⟩
  have := List.find?_some hp
  simpa using this

theorem currentPrice_base {room : Room} {now : Int}
    (h : ¬ ∃ p ∈ room.seasonalPricing, p.startDate ≤ now ∧ now ≤ p.endDate) :
    currentPrice room now = room.basePrice := by
  unfold currentPrice
  have hnone : room.seasonalPricing.find? (fun p => p.startDate ≤ now && now ≤ p.endDate) = none := by
    rw [List.find?_eq_none]
    intro p hp hc
    exact h ⟨p, hp, by simpa using hc⟩
  rw [hnone]

theorem nightsCalc_pos {checkIn checkOut : Int} (h : checkIn < checkOut) :
    1 ≤ numberOfNightsCalc checkIn checkOut := by
  unfold numberOfNightsCalc
  rw [rat_ceil_eq_ceil]
  have hq : (0 : ℚ) < ((checkOut - checkIn : Int) : ℚ) / (1000 * 60 * 60 * 24) := by
    apply div_pos
    · exact_mod_cast sub_pos.mpr h
    · norm_num
  exact Int.ceil_pos.mpr hq

theorem pricing_of_request_ok {st : State} {inp : BookingInput} {now : Int} {g : GenInput}
    {b : Booking} {room : Room}
    (hroom : findRoom st inp.roomId = some room)
    (h : (createBookingRequest st inp now g).resp = Except.ok b) :
    b.numberOfNights = numberOfNightsCalc inp.checkInDate inp.checkOutDate ∧
    1 ≤ b.numberOfNights ∧
    b.roomRate = currentPrice room now ∧
    b.subtotal = b.roomRate * (b.numberOfNights : ℚ) ∧
    b.taxes = b.subtotal * taxRate ∧
    b.totalAmount = b.subtotal + b.taxes := by
  obtain ⟨room2, hroom2, hactive, havail, hdates, hpast, hocc, hb, hstate⟩ :=
    createBookingRequest_ok st inp now g b h
  rw [hroom] at hroom2
  injection hroom2 with hre
  subst hre
  have hnpos : 1 ≤ numberOfNightsCalc inp.checkInDate inp.checkOutDate := nightsCalc_pos hdates
  have hnne : (buildRequestBooking st inp now room).numberOfNights ≠ 0 := by
    show numberOfNightsCalc inp.checkInDate inp.checkOutDate ≠ 0
    omega
  obtain ⟨hr1, hci, hco, hst, hrr, hsub, htax, htot, hid, hg, hps, hsp⟩ :=
    preValidate_proj (buildRequestBooking st inp now room) g
  have hnn := preValidate_nights (buildRequestBooking st inp now room) g hnne
  subst hb
  refine ⟨?_, ?_, ?_, ?_, ?_, ?_⟩
  · rw [hnn]
    rfl
  · rw [hnn]
    exact hnpos
  · rw [hrr]
    rfl
  · rw [hsub, hrr, hnn]
    rfl
  · rw [htax, hsub]
    rfl
  · rw [htot, hsub, htax]
    rfl

theorem pricing_of_create_ok {st : State} {inp : BookingInput} {now : Int} {g : GenInput}
    {pay : PaymentOutcome} {b : Booking} {room : Room}
    (hroom : findRoom st inp.roomId = some room)
    (h : (createBooking st inp now g pay).resp = Except.ok b) :
    b.numberOfNights = numberOfNightsCalc inp.checkInDate inp.checkOutDate ∧
    1 ≤ b.numberOfNights ∧
    b.roomRate = currentPrice room now ∧
    b.subtotal = b.roomRate * (b.numberOfNights : ℚ) ∧
    b.taxes = b.subtotal * taxRate ∧
    b.totalAmount = b.subtotal + b.taxes := by
  obtain ⟨room2, succeeded, intentId, hroom2, hactive, havail, hdates, hpast, hocc, hpay, hb, hstate⟩ :=
    createBooking_ok st inp now g pay b h
  rw [hroom] at hroom2
  injection hroom2 with hre
  subst hre
  have hnpos : 1 ≤ numberOfNightsCalc inp.checkInDate inp.checkOutDate := nightsCalc_pos hdates
  set base : Booking := { buildRequestBooking st inp now room with
      paymentStatus := if succeeded then PaymentStatus.paid else PaymentStatus.pending
      stripePaymentIntentId := some intentId
      status := if succeeded then BookingStatus.confirmed else BookingStatus.pending } with hbase
  have hnne : base.numberOfNights ≠ 0 := by
    show numberOfNightsCalc inp.checkInDate inp.checkOutDate ≠ 0
    omega
  obtain ⟨hr1, hci, hco, hst, hrr, hsub, htax, htot, hid, hg, hps, hsp⟩ :=
    preValidate_proj base g
  have hnn := preValidate_nights base g hnne
  subst hb
  refine ⟨?_, ?_, ?_, ?_, ?_, ?_⟩
  · rw [hnn]
    rfl
  · rw [hnn]
    exact hnpos
  · rw [hrr]
    rfl
  · rw [hsub, hrr, hnn]
    rfl
  · rw [htax, hsub]
    rfl
  · rw [htot, hsub, htax]
    rfl

theorem findRoom_id {st : State} {rid : Nat} {room : Room}
    (h : findRoom st rid = some room) : room.id = rid := by
  have := List.find?_some h
  simpa using this

theorem findRoom_mem {st : State} {rid : Nat} {room : Room}
    (h : findRoom st rid = some room) : room ∈ st.rooms :=
  List.mem_of_find?_eq_some h

theorem isAvailable_no_conflict {room : Room} {bookings : List Booking} {ci co : Int}
    (h : isAvailable room bookings ci co = true) :
    bookings.any (conflictsWith room.id ci co) = false := by
  unfold isAvailable at h
  simp only [Bool.and_eq_true, Bool.not_eq_true'] at h
  exact h.1.1

theorem pairwise_append_new {l : List Booking} {b : Booking}
    (hp : l.Pairwise disjointR)
    (hconf : l.any (conflictsWith b.room b.checkInDate b.checkOutDate) = false) :
    (l ++ [b]).Pairwise disjointR := by
  rw [List.pairwise_append]
  refine ⟨hp, List.pairwise_singleton _ _, ?_⟩
  intro a ha bb hbb
  simp only [List.mem_singleton] at hbb
  subst hbb
  intro hroom hba hbb2 hov
  rw [List.any_eq_false] at hconf
  have := hconf a ha
  unfold conflictsWith at this
  simp only [Bool.and_eq_true, beq_iff_eq, not_and, Bool.not_eq_true] at this
  simp only [decide_eq_true_eq] at this
  rcases hov with ⟨h1, h2⟩
  have h4 := this ⟨hroom, hba⟩ h1
  rw [decide_eq_false_iff_not] at h4
  exact h4 h2

theorem mem_id_eq {l : List Booking} {x b : Booking}
    (hnodup : (l.map Booking.id).Nodup) (hx : x ∈ l) (hb : b ∈ l)
    (hid : x.id = b.id) : x = b := by
  exact List.inj_on_of_nodup_map hnodup hx hb hid

theorem pairwise_update {l : List Booking} {b b2 : Booking}
    (hnodup : (l.map Booking.id).Nodup) (hmem : b ∈ l)
    (hid : b2.id = b.id) (hroom : b2.room = b.room) (hci : b2.checkInDate = b.checkInDate)
    (hco : b2.checkOutDate = b.checkOutDate)
    (hbl : blocking b2.status = true → blocking b.status = true)
    (hp : l.Pairwise disjointR) :
    (l.map (fun x => if x.id == b.id then b2 else x)).Pairwise disjointR := by
  rw [List.pairwise_map]
  refine List.Pairwise.imp_of_mem ?_ hp
  intro x y hx hy hxy
  by_cases hxb : x.id = b.id
  · have hxe : x = b := mem_id_eq hnodup hx hmem hxb
    by_cases hyb : y.id = b.id
    · have hye : y = b := mem_id_eq hnodup hy hmem hyb
      subst hxe hye
      simp only [beq_self_eq_true, if_pos]
      intro h1 h2 h3
      rw [hci, hco]
      exact hxy rfl (hbl h2) (hbl h3)
    · subst hxe
      simp only [beq_self_eq_true, if_pos, beq_iff_eq, hyb, if_neg]
      intro h1 h2 h3
      rw [hci, hco]
      exact hxy (hroom ▸ h1) (hbl h2) h3
  · by_cases hyb : y.id = b.id
    · have hye : y = b := mem_id_eq hnodup hy hmem hyb
      subst hye
      simp only [beq_iff_eq, hxb, if_neg, beq_self_eq_true, if_pos]
      intro h1 h2 h3
      rw [hci, hco]
      exact hxy (hroom ▸ h1) h2 (hbl h3)
    · simp only [beq_iff_eq, hxb, hyb, if_neg]
      exact hxy

theorem storeInv_append {st : State} {b : Booking}
    (hinv : StoreInv st) (hid : b.id = st.bookings.length)
    (hconf : st.bookings.any (conflictsWith b.room b.checkInDate b.checkOutDate) = false) :
    StoreInv { st with bookings := st.bookings ++ [b] } := by
  obtain ⟨hnodup, hbound, hp⟩ := hinv
  refine ⟨?_, ?_, ?_⟩
  · simp only [List.map_append, List.map_cons, List.map_nil]
    rw [List.nodup_append]
    refine ⟨hnodup, List.nodup_singleton _, ?_⟩
    intro a ha hb
    simp only [List.mem_singleton] at hb
    subst hb
    rw [List.mem_map] at ha
    obtain ⟨x, hx, hxa⟩ := ha
    have := hbound x hx
    omega
  · intro a ha
    simp only [List.length_append, List.length_cons, List.length_nil]
    rcases List.mem_append.mp ha with h | h
    · have := hbound a h
      omega
    · simp only [List.mem_singleton] at h
      subst h
      omega
  · exact pairwise_append_new hp hconf

theorem updateBooking_map_id {st : State} {b2 : Booking} {bid : Nat}
    (hid : b2.id = bid) :
    ({ st with bookings := st.bookings.map (fun x => if x.id == bid then b2 else x) } : State).bookings.map Booking.id = st.bookings.map Booking.id := by
  simp only [List.map_map]
  apply List.map_congr_left
  intro x hx
  by_cases h : x.id = bid
  · simp [Function.comp, h, hid]
  · simp [Function.comp, h]

theorem storeInv_update {st : State} {b b2 : Booking}
    (hinv : StoreInv st) (hmem : b ∈ st.bookings)
    (hid : b2.id = b.id) (hroom : b2.room = b.room) (hci : b2.checkInDate = b.checkInDate)
    (hco : b2.checkOutDate = b.checkOutDate)
    (hbl : blocking b2.status = true → blocking b.status = true) :
    StoreInv (updateBooking st b2) := by
  obtain ⟨hnodup, hbound, hp⟩ := hinv
  have hmap : (updateBooking st b2).bookings.map Booking.id = st.bookings.map Booking.id := by
    unfold updateBooking
    exact updateBooking_map_id rfl
  refine ⟨?_, ?_, ?_⟩
  · rw [hmap]
    exact hnodup
  · intro a ha
    unfold updateBooking at ha ⊢
    simp only [List.mem_map] at ha
    obtain ⟨x, hx, hxa⟩ := ha
    simp only [List.length_map]
    have hxb := hbound x hx
    by_cases h : x.id = b2.id
    · rw [if_pos (by simpa using h)] at hxa
      subst hxa
      have hbb := hbound b hmem
      omega
    · rw [if_neg (by simpa using h)] at hxa
      subst hxa
      exact hxb
  · unfold updateBooking
    rw [hid]
    exact pairwise_update hnodup hmem hid hroom hci hco hbl hp

theorem checkinBooking_none {st : State} {bookingId : Nat} {now : Int}
    (h : findBookingById st bookingId = none) :
    checkinBooking st bookingId now = ⟨Except.error Err.notFound, st⟩ := by
  unfold checkinBooking
  rw [h]

theorem checkinBooking_guard {st : State} {bookingId : Nat} {now : Int} {b : Booking}
    (h : findBookingById st bookingId = some b) (hs : b.status ≠ BookingStatus.confirmed) :
    checkinBooking st bookingId now = ⟨Except.error Err.invalidTransition, st⟩ := by
  unfold checkinBooking
  rw [h]
  simp only [if_pos hs]

theorem checkinBooking_success {st : State} {bookingId : Nat} {now : Int} {b : Booking}
    (h : findBookingById st bookingId = some b) (hs : b.status = BookingStatus.confirmed) :
    (checkinBooking st bookingId now).resp =
      Except.ok { b with status := BookingStatus.checkedIn, actualCheckInTime := some now } ∧
    (checkinBooking st bookingId now).state.bookings =
      (updateBooking st { b with status := BookingStatus.checkedIn, actualCheckInTime := some now }).bookings := by
  unfold checkinBooking
  rw [h]
  dsimp only
  rw [if_neg (by simp [hs])]
  constructor
  · rfl
  · simp only []
    split
    · rfl
    · rfl

theorem checkoutBooking_none {st : State} {bookingId : Nat} {now : Int}
    (h : findBookingById st bookingId = none) :
    checkoutBooking st bookingId now = ⟨Except.error Err.notFound, st⟩ := by
  unfold checkoutBooking
  rw [h]

theorem checkoutBooking_guard {st : State} {bookingId : Nat} {now : Int} {b : Booking}
    (h : findBookingById st bookingId = some b) (hs : b.status ≠ BookingStatus.checkedIn) :
    checkoutBooking st bookingId now = ⟨Except.error Err.invalidTransition, st⟩ := by
  unfold checkoutBooking
  rw [h]
  simp only [if_pos hs]

theorem checkoutBooking_success {st : State} {bookingId : Nat} {now : Int} {b : Booking}
    (h : findBookingById st bookingId = some b) (hs : b.status = BookingStatus.checkedIn) :
    (checkoutBooking st bookingId now).resp =
      Except.ok { b with status := BookingStatus.checkedOut, actualCheckOutTime := some now } ∧
    (checkoutBooking st bookingId now).state.bookings =
      (updateBooking st { b with status := BookingStatus.checkedOut, actualCheckOutTime := some now }).bookings := by
  unfold checkoutBooking
  rw [h]
  dsimp only
  rw [if_neg (by simp [hs])]
  constructor
  · rfl
  · simp only []
    split
    · rfl
    · rfl

theorem findCancelTarget_eq (st : State) (n c : String) :
    st.bookings.find? (fun b => b.bookingNumber == n && b.confirmationCode == c) =
      st.bookings.find? (fun b => b.bookingNumber == n && b.confirmationCode == c) := rfl

theorem cancelBooking_none {st : State} {n c : String} {reason : Option String}
    {now : Int} {refundOk : Bool}
    (h : st.bookings.find? (fun b => b.bookingNumber == n && b.confirmationCode == c) = none) :
    cancelBooking st n c reason now refundOk = ⟨Except.error Err.notFound, st⟩ := by
  unfold cancelBooking
  rw [h]

theorem cancelBooking_guard {st : State} {n c : String} {reason : Option String}
    {now : Int} {refundOk : Bool} {b : Booking}
    (h : st.bookings.find? (fun b => b.bookingNumber == n && b.confirmationCode == c) = some b)
    (hg : canBeCancelled b now = false) :
    cancelBooking st n c reason now refundOk = ⟨Except.error Err.cannotCancel, st⟩ := by
  unfold cancelBooking
  rw [h]
  simp only [hg]
  rw [if_pos (by simp)]

theorem cancelBooking_refundFail {st : State} {n c : String} {reason : Option String}
    {now : Int} {b : Booking}
    (h : st.bookings.find? (fun b => b.bookingNumber == n && b.confirmationCode == c) = some b)
    (hg : canBeCancelled b now = true)
    (hintent : b.stripePaymentIntentId.isSome = true)
    (hpos : 0 < b.totalAmount - calculateCancellationFee b now) :
    cancelBooking st n c reason now false = ⟨Except.error Err.refundFailed, st⟩ := by
  unfold cancelBooking
  rw [h]
  dsimp only
  rw [if_neg (by simp [hg])]
  rw [if_pos (by simp [hintent, hpos])]

theorem cancelBooking_success {st : State} {n c : String} {reason : Option String}
    {now : Int} {refundOk : Bool} {b : Booking}
    (h : st.bookings.find? (fun b => b.bookingNumber == n && b.confirmationCode == c) = some b)
    (hg : canBeCancelled b now = true)
    (href : (b.stripePaymentIntentId.isSome &&
        decide (0 < b.totalAmount - calculateCancellationFee b now) && !refundOk) = false) :
    cancelBooking st n c reason now refundOk =
      ⟨Except.ok (calculateCancellationFee b now, b.totalAmount - calculateCancellationFee b now),
        updateBooking st { b with
          status := BookingStatus.cancelled
          cancellationReason := reason
          cancellationDate := some now
          cancellationFee := calculateCancellationFee b now
          refundAmount := b.totalAmount - calculateCancellationFee b now
          paymentStatus := if 0 < b.totalAmount - calculateCancellationFee b now
            then PaymentStatus.refunded else PaymentStatus.paid }⟩ := by
  unfold cancelBooking
  rw [h]
  dsimp only
  rw [if_neg (by simp [hg])]
  rw [if_neg (by simp_all)]

theorem createBookingRequest_state_or (st : State) (inp : BookingInput) (now : Int)
    (g : GenInput) :
    (createBookingRequest st inp now g).state = st ∨
      ∃ b, (createBookingRequest st inp now g).resp = Except.ok b := by
  generalize hr : createBookingRequest st inp now g = r
  unfold createBookingRequest at hr
  split at hr
  · exact Or.inl (by rw [← hr])
  · split at hr
    · exact Or.inl (by rw [← hr])
    · split at hr
      · exact Or.inl (by rw [← hr])
      · split at hr
        · exact Or.inl (by rw [← hr])
        · split at hr
          · exact Or.inl (by rw [← hr])
          · split at hr
            · exact Or.inl (by rw [← hr])
            · split at hr
              · exact Or.inl (by rw [← hr])
              · simp only [] at hr
                split at hr
                · exact Or.inl (by rw [← hr])
                · exact Or.inr ⟨_, by rw [← hr]⟩

theorem createBooking_state_or (st : State) (inp : BookingInput) (now : Int)
    (g : GenInput) (pay : PaymentOutcome) :
    (createBooking st inp now g pay).state = st ∨
      ∃ b, (createBooking st inp now g pay).resp = Except.ok b := by
  generalize hr : createBooking st inp now g pay = r
  unfold createBooking at hr
  split at hr
  · exact Or.inl (by rw [← hr])
  · split at hr
    · exact Or.inl (by rw [← hr])
    · split at hr
      · exact Or.inl (by rw [← hr])
      · split at hr
        · exact Or.inl (by rw [← hr])
        · split at hr
          · exact Or.inl (by rw [← hr])
          · split at hr
            · exact Or.inl (by rw [← hr])
            · split at hr
              · exact Or.inl (by rw [← hr])
              · split at hr
                · exact Or.inl (by rw [← hr])
                · simp only [] at hr
                  split at hr
                  · exact Or.inl (by rw [← hr])
                  · exact Or.inr ⟨_, by rw [← hr]⟩

theorem storeInv_bookings_congr {st1 st2 : State} (h : st1.bookings = st2.bookings) :
    StoreInv st2 → StoreInv st1 := by
  unfold StoreInv
  rw [h]
  exact id

theorem findBookingById_mem {st : State} {bookingId : Nat} {b : Booking}
    (h : findBookingById st bookingId = some b) : b ∈ st.bookings :=
  List.mem_of_find?_eq_some h

theorem newBooking_id {st : State} {inp : BookingInput} {now : Int} {g : GenInput}
    {room : Room} {b : Booking} (hb : b = preValidate (buildRequestBooking st inp now room) g) :
    b.id = st.bookings.length := by
  obtain ⟨h1, h2, h3, h4, h5, h6, h7, h8, h9, h10, h11, h12⟩ :=
    preValidate_proj (buildRequestBooking st inp now room) g
  rw [hb, h9]
  rfl

theorem newBooking_conflict_free {st : State} {inp : BookingInput}
    {room : Room} {b0 b : Booking} {g : GenInput}
    (hroom : findRoom st inp.roomId = some room)
    (havail : isAvailable room st.bookings inp.checkInDate inp.checkOutDate = true)
    (hbase : b0.room = inp.roomId ∧ b0.checkInDate = inp.checkInDate ∧
      b0.checkOutDate = inp.checkOutDate)
    (hb : b = preValidate b0 g) :
    st.bookings.any (conflictsWith b.room b.checkInDate b.checkOutDate) = false := by
  obtain ⟨h1, h2, h3, h4, h5, h6, h7, h8, h9, h10, h11, h12⟩ := preValidate_proj b0 g
  have hbr : b.room = room.id := by
    rw [hb, h1, hbase.1, findRoom_id hroom]
  have hbci : b.checkInDate = inp.checkInDate := by rw [hb, h2, hbase.2.1]
  have hbco : b.checkOutDate = inp.checkOutDate := by rw [hb, h3, hbase.2.2]
  rw [hbr, hbci, hbco]
  exact isAvailable_no_conflict havail

theorem storeInv_step (st : State) (op : Op) (hinv : StoreInv st) :
    StoreInv (step st op) := by
  cases op with
  | request inp now g =>
    show StoreInv (createBookingRequest st inp now g).state
    rcases createBookingRequest_state_or st inp now g with h | ⟨b, hok⟩
    · rw [h]
      exact hinv
    · obtain ⟨room, hroom, hactive, havail, hdates, hpast, hocc, hb, hstate⟩ :=
        createBookingRequest_ok st inp now g b hok
      rw [hstate]
      exact storeInv_append hinv (newBooking_id hb)
        (newBooking_conflict_free hroom havail ⟨rfl, rfl, rfl⟩ hb)
  | create inp now g pay =>
    show StoreInv (createBooking st inp now g pay).state
    rcases createBooking_state_or st inp now g pay with h | ⟨b, hok⟩
    · rw [h]
      exact hinv
    · obtain ⟨room, succeeded, intentId, hroom, hactive, havail, hdates, hpast, hocc,
        hpay, hb, hstate⟩ := createBooking_ok st inp now g pay b hok
      rw [hstate]
      refine storeInv_append hinv ?_ ?_
      · obtain ⟨h1, h2, h3, h4, h5, h6, h7, h8, h9, h10, h11, h12⟩ :=
          preValidate_proj { buildRequestBooking st inp now room with
            paymentStatus := if succeeded then PaymentStatus.paid else PaymentStatus.pending
            stripePaymentIntentId := some intentId
            status := if succeeded then BookingStatus.confirmed else BookingStatus.pending } g
        rw [hb, h9]
        rfl
      · exact newBooking_conflict_free hroom havail ⟨rfl, rfl, rfl⟩ hb
  | checkin bookingId now =>
    show StoreInv (checkinBooking st bookingId now).state
    cases hfind : findBookingById st bookingId with
    | none =>
      rw [checkinBooking_none hfind]
      exact hinv
    | some b =>
      by_cases hs : b.status = BookingStatus.confirmed
      · obtain ⟨hresp, hbk⟩ := checkinBooking_success hfind hs
        refine storeInv_bookings_congr hbk ?_
        refine storeInv_update hinv (findBookingById_mem hfind) rfl rfl rfl rfl ?_
        intro _
        rw [hs]
        rfl
      · rw [checkinBooking_guard hfind hs]
        exact hinv
  | checkout bookingId now =>
    show StoreInv (checkoutBooking st bookingId now).state
    cases hfind : findBookingById st bookingId with
    | none =>
      rw [checkoutBooking_none hfind]
      exact hinv
    | some b =>
      by_cases hs : b.status = BookingStatus.checkedIn
      · obtain ⟨hresp, hbk⟩ := checkoutBooking_success hfind hs
        refine storeInv_bookings_congr hbk ?_
        refine storeInv_update hinv (findBookingById_mem hfind) rfl rfl rfl rfl ?_
        intro hcontra
        simp [blocking] at hcontra
      · rw [checkoutBooking_guard hfind hs]
        exact hinv
  | cancel n c reason now refundOk =>
    show StoreInv (cancelBooking st n c reason now refundOk).state
    cases hfind : st.bookings.find? (fun b => b.bookingNumber == n && b.confirmationCode == c) with
    | none =>
      rw [cancelBooking_none hfind]
      exact hinv
    | some b =>
      by_cases hg : canBeCancelled b now = true
      · by_cases hcond : (b.stripePaymentIntentId.isSome &&
            decide (0 < b.totalAmount - calculateCancellationFee b now) && !refundOk) = true
        · have hintent : b.stripePaymentIntentId.isSome = true := by
            simp only [Bool.and_eq_true] at hcond
            exact hcond.1.1
          have hpos : 0 < b.totalAmount - calculateCancellationFee b now := by
            simp only [Bool.and_eq_true, decide_eq_true_eq] at hcond
            exact hcond.1.2
          have hrf : refundOk = false := by
            simp only [Bool.and_eq_true, Bool.not_eq_true'] at hcond
            exact hcond.2
          subst hrf
          rw [cancelBooking_refundFail hfind hg hintent hpos]
          exact hinv
        · have href := eq_false_of_ne_true hcond
          rw [cancelBooking_success hfind hg href]
          refine storeInv_update hinv (List.mem_of_find?_eq_some hfind) rfl rfl rfl rfl ?_
          intro hcontra
          simp [blocking] at hcontra
      · rw [cancelBooking_guard hfind (eq_false_of_ne_true hg)]
        exact hinv

theorem storeInv_run (st : State) (ops : List Op) (hinv : StoreInv st) :
    StoreInv (run st ops) := by
  induction ops generalizing st with
  | nil => exact hinv
  | cons op ops ih =>
    show StoreInv (run (step st op) ops)
    exact ih _ (storeInv_step st op hinv)

/-! ## Claim theorems -/

/-- C1: under sequential execution of the booking operations (request
creation, paid creation — whose payment-success branch is the only
confirmation in the code — check-in, check-out, cancellation), every
state reachable from a store satisfying the invariant keeps the
reservations of any one room that are in a blocking status
(`Confirmed`/`Checked In`) pairwise disjoint on their half-open
`[checkInDate, checkOutDate)` intervals; and each creation route
persists a new reservation only if `isAvailable` returned `true` for
its room and interval against the store state immediately before the
insert. -/
theorem C1_sequential_interval_disjointness (st0 : State) (h0 : StoreInv st0) :
    (∀ ops : List Op, (run st0 ops).bookings.Pairwise disjointR) ∧
    (∀ inp now g b, (createBookingRequest st0 inp now g).resp = Except.ok b →
      ∃ room, findRoom st0 inp.roomId = some room ∧
        isAvailable room st0.bookings inp.checkInDate inp.checkOutDate = true ∧
        (createBookingRequest st0 inp now g).state =
          { st0 with bookings := st0.bookings ++ [b] }) ∧
    (∀ inp now g pay b, (createBooking st0 inp now g pay).resp = Except.ok b →
      ∃ room, findRoom st0 inp.roomId = some room ∧
        isAvailable room st0.bookings inp.checkInDate inp.checkOutDate = true ∧
        (createBooking st0 inp now g pay).state =
          { st0 with bookings := st0.bookings ++ [b] }) := by
  refine ⟨fun ops => (storeInv_run st0 ops h0).2.2, ?_, ?_⟩
  · intro inp now g b hok
    obtain ⟨room, hroom, hactive, havail, hdates, hpast, hocc, hb, hstate⟩ :=
      createBookingRequest_ok st0 inp now g b hok
    exact ⟨room, hroom, havail, hstate⟩
  · intro inp now g pay b hok
    obtain ⟨room, succeeded, intentId, hroom, hactive, havail, hdates, hpast, hocc,
      hpay, hb, hstate⟩ := createBooking_ok st0 inp now g pay b hok
    exact ⟨room, hroom, havail, hstate⟩

/-- C1 witness: the empty demo store satisfies the invariant, and after
a paid creation followed by a boundary-touching request the reachable
store still has pairwise-disjoint blocking reservations. -/
theorem C1_witness :
    StoreInv demoState ∧
    (run demoState
        [Op.create demoInp 0 demoGen (PaymentOutcome.intent true "pi_1"),
         Op.request demoInp2 (10 * 86400000) demoGen2]).bookings.Pairwise disjointR := by
  have h0 : StoreInv demoState := ⟨by simp [demoState], by simp [demoState], by simp [demoState]⟩
  exact ⟨h0, (C1_sequential_interval_disjointness demoState h0).1 _⟩

/-- `blocking` as a proposition. -/
theorem blocking_iff (s : BookingStatus) :
    blocking s = true ↔ (s = BookingStatus.confirmed ∨ s = BookingStatus.checkedIn) := by
  cases s <;> simp [blocking]

/-- `conflictsWith` as a proposition. -/
theorem conflictsWith_iff (rid : Nat) (ci co : Int) (b : Booking) :
    conflictsWith rid ci co b = true ↔
      (b.room = rid ∧ (b.status = BookingStatus.confirmed ∨ b.status = BookingStatus.checkedIn) ∧
        b.checkInDate < co ∧ ci < b.checkOutDate) := by
  unfold conflictsWith
  simp [Bool.and_eq_true, decide_eq_true_eq, beq_iff_eq, blocking_iff, and_assoc, gt_iff_lt]

/-- C2: `isAvailable` holds iff the room is active, its operational
status is `Available`, and no reservation of that room in status
`Confirmed` or `Checked In` overlaps the half-open query interval;
`findAvailable` returns exactly the active `Available` rooms of
sufficient capacity without such a conflict; reservations in any of the
four non-blocking statuses never conflict; and an interval ending
exactly at the query check-in never conflicts. -/
theorem C2_availability_characterization :
    (∀ (room : Room) (bookings : List Booking) (ci co : Int),
      isAvailable room bookings ci co = true ↔
        (room.isActive = true ∧ room.status = RoomStatus.available ∧
          ∀ b ∈ bookings, b.room = room.id →
            (b.status = BookingStatus.confirmed ∨ b.status = BookingStatus.checkedIn) →
            ¬ (b.checkInDate < co ∧ ci < b.checkOutDate))) ∧
    (∀ (st : State) (ci co : Int) (guests : Int) (room : Room),
      room ∈ findAvailable st ci co guests ↔
        (room ∈ st.rooms ∧ room.isActive = true ∧ room.status = RoomStatus.available ∧
          guests ≤ room.maxOccupancy ∧
          ∀ b ∈ st.bookings, b.room = room.id →
            (b.status = BookingStatus.confirmed ∨ b.status = BookingStatus.checkedIn) →
            ¬ (b.checkInDate < co ∧ ci < b.checkOutDate))) ∧
    (∀ (rid : Nat) (ci co : Int) (b : Booking),
      (b.status = BookingStatus.pending ∨ b.status = BookingStatus.cancelled ∨
        b.status = BookingStatus.checkedOut ∨ b.status = BookingStatus.noShow) →
      conflictsWith rid ci co b = false) ∧
    (∀ (rid : Nat) (ci co : Int) (b : Booking), b.checkOutDate = ci →
      conflictsWith rid ci co b = false) := by
  refine ⟨?_, ?_, ?_, ?_⟩
  · intro room bookings ci co
    unfold isAvailable
    simp only [Bool.and_eq_true, Bool.not_eq_true', List.any_eq_false, beq_iff_eq]
    constructor
    · rintro ⟨⟨hconf, hst⟩, hact⟩
      refine ⟨hact, hst, ?_⟩
      intro b hb hr hs hov
      have := hconf b hb
      rw [conflictsWith_iff] at this
      exact this ⟨hr, hs, hov.1, hov.2⟩
    · rintro ⟨hact, hst, hconf⟩
      refine ⟨⟨?_, hst⟩, hact⟩
      intro b hb
      rw [conflictsWith_iff]
      rintro ⟨hr, hs, h1, h2⟩
      exact hconf b hb hr hs ⟨h1, h2⟩
  · intro st ci co guests room
    unfold findAvailable
    simp only [List.mem_filter, Bool.and_eq_true, Bool.not_eq_true', List.any_eq_false,
      beq_iff_eq, decide_eq_true_eq]
    constructor
    · rintro ⟨⟨hmem, ⟨hst, hact⟩, hcap⟩, hconf⟩
      refine ⟨hmem, hact, hst, hcap, ?_⟩
      intro b hb hr hs hov
      have := hconf b hb
      rw [conflictsWith_iff] at this
      exact this ⟨hr, hs, hov.1, hov.2⟩
    · rintro ⟨hmem, hact, hst, hcap, hconf⟩
      refine ⟨⟨hmem, ⟨hst, hact⟩, hcap⟩, ?_⟩
      intro b hb
      rw [conflictsWith_iff]
      rintro ⟨hr, hs, h1, h2⟩
      exact hconf b hb hr hs ⟨h1, h2⟩
  · intro rid ci co b hs
    cases hcw : conflictsWith rid ci co b
    · rfl
    · exfalso
      obtain ⟨hr, hs2, h1, h2⟩ := (conflictsWith_iff rid ci co b).mp hcw
      rcases hs with h | h | h | h <;> rcases hs2 with h2s | h2s <;> simp [h] at h2s
  · intro rid ci co b hco
    cases hcw : conflictsWith rid ci co b
    · rfl
    · exfalso
      obtain ⟨hr, hs2, h1, h2⟩ := (conflictsWith_iff rid ci co b).mp hcw
      omega

/-- C2 witness: the demo room is available for an interval on the empty
store, and belongs to the bulk search result there. -/
theorem C2_witness :
    isAvailable demoRoom [] 0 86400000 = true ∧
    demoRoom ∈ findAvailable demoState 0 86400000 2 := by
  constructor
  · exact (C2_availability_characterization.1 demoRoom [] 0 86400000).mpr
      ⟨rfl, rfl, by simp⟩
  · exact (C2_availability_characterization.2.1 demoState 0 86400000 2 demoRoom).mpr
      ⟨by simp [demoState], rfl, rfl, by decide, by simp [demoState]⟩

/-- C3: every successful booking creation (either route) with check-in
strictly before check-out stores `numberOfNights =
⌈(checkOut − checkIn) / 1 day⌉ ≥ 1`, `roomRate` equal to the room's
`currentPrice` at evaluation time `now` (base price scaled by the first
seasonal override containing `now`, otherwise the base price),
`subtotal = roomRate · numberOfNights`, `taxes = subtotal · 0.12` and
`totalAmount = subtotal + taxes`. -/
theorem C3_pricing_formulas :
    (∀ st inp now g b room, findRoom st inp.roomId = some room →
      (createBookingRequest st inp now g).resp = Except.ok b →
      (b.numberOfNights : ℤ) =
          ⌈((inp.checkOutDate - inp.checkInDate : Int) : ℚ) / (1000 * 60 * 60 * 24)⌉ ∧
      1 ≤ b.numberOfNights ∧ b.roomRate = currentPrice room now ∧
      b.subtotal = b.roomRate * (b.numberOfNights : ℚ) ∧
      b.taxes = b.subtotal * (0.12 : ℚ) ∧
      b.totalAmount = b.subtotal + b.taxes) ∧
    (∀ st inp now g pay b room, findRoom st inp.roomId = some room →
      (createBooking st inp now g pay).resp = Except.ok b →
      (b.numberOfNights : ℤ) =
          ⌈((inp.checkOutDate - inp.checkInDate : Int) : ℚ) / (1000 * 60 * 60 * 24)⌉ ∧
      1 ≤ b.numberOfNights ∧ b.roomRate = currentPrice room now ∧
      b.subtotal = b.roomRate * (b.numberOfNights : ℚ) ∧
      b.taxes = b.subtotal * (0.12 : ℚ) ∧
      b.totalAmount = b.subtotal + b.taxes) ∧
    (∀ (room : Room) (now : Int),
      ((∃ p ∈ room.seasonalPricing, p.startDate ≤ now ∧ now ≤ p.endDate) →
        ∃ p ∈ room.seasonalPricing, (p.startDate ≤ now ∧ now ≤ p.endDate) ∧
          currentPrice room now = room.basePrice * p.priceMultiplier) ∧
      ((¬ ∃ p ∈ room.seasonalPricing, p.startDate ≤ now ∧ now ≤ p.endDate) →
        currentPrice room now = room.basePrice)) := by
  refine ⟨?_, ?_, fun room now => ⟨fun h => currentPrice_found h, fun h => currentPrice_base h⟩⟩
  · intro st inp now g b room hroom hok
    obtain ⟨hn, hpos, hrate, hsub, htax, htot⟩ := pricing_of_request_ok hroom hok
    refine ⟨?_, hpos, hrate, hsub, htax, htot⟩
    rw [hn]
    exact rat_ceil_eq_ceil _
  · intro st inp now g pay b room hroom hok
    obtain ⟨hn, hpos, hrate, hsub, htax, htot⟩ := pricing_of_create_ok hroom hok
    refine ⟨?_, hpos, hrate, hsub, htax, htot⟩
    rw [hn]
    exact rat_ceil_eq_ceil _

/-- C3 witness: the end-to-end scenario — base price $100, three nights,
no seasonal override — stores subtotal 300, taxes 36, total 336, and the
theorem's formulas hold for the persisted document. -/
theorem C3_witness :
    (1 ≤ demoCreated.numberOfNights ∧ demoCreated.roomRate = currentPrice demoRoom 0) ∧
    demoCreated.numberOfNights = 3 ∧ demoCreated.subtotal = 300 ∧
    demoCreated.taxes = 36 ∧ demoCreated.totalAmount = 336 := by
  have h := (C3_pricing_formulas.1 demoState demoInp 0 demoGen demoCreated demoRoom
    (by rfl) (by rfl))
  refine ⟨⟨h.2.1, h.2.2.1⟩, ?_, ?_, ?_, ?_⟩ <;> with_unfolding_all decide

/-- C4: a cancellation succeeds only for a booking found by booking
number and confirmation code whose status is `Confirmed` with strictly
more than 24 hours until check-in; the fee is then 0 above 48 hours,
25% of `totalAmount` in `(24, 48]` hours, 50% at or below 24 hours
(unreachable under the guard), and the refund is `totalAmount − fee`. -/
theorem C4_cancellation_policy (st : State) (n c : String) (reason : Option String)
    (now : Int) (refundOk : Bool) (fee refund : ℚ)
    (h : (cancelBooking st n c reason now refundOk).resp = Except.ok (fee, refund)) :
    ∃ b, st.bookings.find? (fun x => x.bookingNumber == n && x.confirmationCode == c) = some b ∧
      b.status = BookingStatus.confirmed ∧ 24 < hoursUntilCheckIn b now ∧
      fee = (if 48 < hoursUntilCheckIn b now then 0
        else if 24 < hoursUntilCheckIn b now then b.totalAmount * (0.25 : ℚ)
        else b.totalAmount * (0.50 : ℚ)) ∧
      refund = b.totalAmount - fee := by
  cases hfind : st.bookings.find? (fun x => x.bookingNumber == n && x.confirmationCode == c) with
  | none =>
    rw [cancelBooking_none hfind] at h
    exact absurd h (by simp)
  | some b =>
    by_cases hg : canBeCancelled b now = true
    · by_cases hcond : (b.stripePaymentIntentId.isSome &&
          decide (0 < b.totalAmount - calculateCancellationFee b now) && !refundOk) = true
      · have hintent : b.stripePaymentIntentId.isSome = true := by
          simp only [Bool.and_eq_true] at hcond
          exact hcond.1.1
        have hpos : 0 < b.totalAmount - calculateCancellationFee b now := by
          simp only [Bool.and_eq_true, decide_eq_true_eq] at hcond
          exact hcond.1.2
        have hrf : refundOk = false := by
          simp only [Bool.and_eq_true, Bool.not_eq_true'] at hcond
          exact hcond.2
        subst hrf
        rw [cancelBooking_refundFail hfind hg hintent hpos] at h
        exact absurd h (by simp)
      · rw [cancelBooking_success hfind hg (eq_false_of_ne_true hcond)] at h
        simp only [Except.ok.injEq, Prod.mk.injEq] at h
        obtain ⟨hfee, hrefund⟩ := h
        have hcan := hg
        unfold canBeCancelled at hcan
        simp only [Bool.and_eq_true, beq_iff_eq, decide_eq_true_eq] at hcan
        refine ⟨b, rfl, hcan.1, hcan.2, ?_, ?_⟩
        · rw [← hfee]
          unfold calculateCancellationFee
          rfl
        · rw [← hrefund, ← hfee]
    · rw [cancelBooking_guard hfind (eq_false_of_ne_true hg)] at h
      exact absurd h (by simp)

/-- C4 witness: cancelling the demo booking 30 hours ahead charges the
25% fee of $84 and refunds $252. -/
theorem C4_witness :
    (cancelBooking demoCancelState "OVH2025000001" "CODE1234" none 0 true).resp =
      Except.ok (84, 252) ∧
    ∃ b, demoCancelState.bookings.find?
        (fun x => x.bookingNumber == "OVH2025000001" && x.confirmationCode == "CODE1234") = some b ∧
      b.status = BookingStatus.confirmed ∧ 24 < hoursUntilCheckIn b 0 ∧
      (84 : ℚ) = (if 48 < hoursUntilCheckIn b 0 then 0
        else if 24 < hoursUntilCheckIn b 0 then b.totalAmount * (0.25 : ℚ)
        else b.totalAmount * (0.50 : ℚ)) ∧
      (252 : ℚ) = b.totalAmount - 84 := by
  have hresp : (cancelBooking demoCancelState "OVH2025000001" "CODE1234" none 0 true).resp =
      Except.ok (84, 252) := by
    with_unfolding_all decide
  exact ⟨hresp, C4_cancellation_policy demoCancelState "OVH2025000001" "CODE1234" none 0 true
    84 252 hresp⟩

/-- C5: each lifecycle transition attempted outside its guard — check-in
of a non-`Confirmed` booking, check-out of a non-`Checked In` booking,
cancellation failing the eligibility guard — returns an error and leaves
the store (reservations and rooms) entirely unchanged; and when the
external refund call fails during an eligible cancellation, the store is
likewise left unchanged: the booking is not marked `Cancelled` and no
cancellation metadata is written. -/
theorem C5_guarded_transitions_no_mutation :
    (∀ st bookingId now b, findBookingById st bookingId = some b →
      b.status ≠ BookingStatus.confirmed →
      (checkinBooking st bookingId now).resp = Except.error Err.invalidTransition ∧
      (checkinBooking st bookingId now).state = st) ∧
    (∀ st bookingId now b, findBookingById st bookingId = some b →
      b.status ≠ BookingStatus.checkedIn →
      (checkoutBooking st bookingId now).resp = Except.error Err.invalidTransition ∧
      (checkoutBooking st bookingId now).state = st) ∧
    (∀ st n c reason now refundOk b,
      st.bookings.find? (fun x => x.bookingNumber == n && x.confirmationCode == c) = some b →
      canBeCancelled b now = false →
      (cancelBooking st n c reason now refundOk).resp = Except.error Err.cannotCancel ∧
      (cancelBooking st n c reason now refundOk).state = st) ∧
    (∀ st n c reason now b,
      st.bookings.find? (fun x => x.bookingNumber == n && x.confirmationCode == c) = some b →
      canBeCancelled b now = true →
      b.stripePaymentIntentId.isSome = true →
      0 < b.totalAmount - calculateCancellationFee b now →
      (cancelBooking st n c reason now false).resp = Except.error Err.refundFailed ∧
      (cancelBooking st n c reason now false).state = st) := by
  refine ⟨?_, ?_, ?_, ?_⟩
  · intro st bookingId now b hfind hs
    rw [checkinBooking_guard hfind hs]
    exact ⟨rfl, rfl⟩
  · intro st bookingId now b hfind hs
    rw [checkoutBooking_guard hfind hs]
    exact ⟨rfl, rfl⟩
  · intro st n c reason now refundOk b hfind hg
    rw [cancelBooking_guard hfind hg]
    exact ⟨rfl, rfl⟩
  · intro st n c reason now b hfind hg hintent hpos
    rw [cancelBooking_refundFail hfind hg hintent hpos]
    exact ⟨rfl, rfl⟩

/-- C5 witness: checking in the pending booking fails and leaves the
store untouched, and a failing refund during cancellation of the paid
booking likewise leaves the store untouched. -/
theorem C5_witness :
    ((checkinBooking demoGuardState 2 0).resp = Except.error Err.invalidTransition ∧
      (checkinBooking demoGuardState 2 0).state = demoGuardState) ∧
    ((cancelBooking demoGuardState "OVH2025000002" "CODE5678" none 0 false).resp =
        Except.error Err.refundFailed ∧
      (cancelBooking demoGuardState "OVH2025000002" "CODE5678" none 0 false).state =
        demoGuardState) := by
  constructor
  · exact C5_guarded_transitions_no_mutation.1 demoGuardState 2 0 demoPendingBooking
      (by rfl) (by decide)
  · exact C5_guarded_transitions_no_mutation.2.2.2 demoGuardState "OVH2025000002" "CODE5678"
      none 0 demoPaidBooking (by rfl) (by with_unfolding_all decide) (by rfl)
      (by with_unfolding_all decide)

/-- C6 counterexample: the claim says the stored pricing depends on
nothing but the resource snapshot and the two stay dates; but the same
snapshot and dates, priced at evaluation time 0 (inside the seasonal
override) and at evaluation time of day 2 (outside it), store different
totals — $672 against $336 — so the claim as stated is false. -/
theorem C6_counterexample :
    Except.map Booking.totalAmount (createBookingRequest demoSeasonState demoInp 0 demoGen).resp ≠
      Except.map Booking.totalAmount
        (createBookingRequest demoSeasonState demoInp (2 * 86400000) demoGen).resp := by
  with_unfolding_all decide

/-- Fields of a room relevant to pricing. -/
theorem currentPrice_congr {room1 room2 : Room} (now : Int)
    (hbase : room1.basePrice = room2.basePrice)
    (hseason : room1.seasonalPricing = room2.seasonalPricing) :
    currentPrice room1 now = currentPrice room2 now := by
  unfold currentPrice
  rw [hbase, hseason]

/-- C6 amended: pricing is deterministic given the evaluation time: the
stored `roomRate`, `numberOfNights`, `subtotal`, `taxes` and
`totalAmount` of a successful creation depend on nothing but the room's
pricing snapshot (`basePrice`, `seasonalPricing`), the two stay dates,
and the evaluation time `now` — two creations agreeing on those, on
either creation route, store identical values whatever the rest of their
stores, guests and randomness. -/
theorem C6_price_determinism_given_now :
    (∀ st1 st2 inp1 inp2 (now : Int) g1 g2 room1 room2 b1 b2,
      findRoom st1 inp1.roomId = some room1 → findRoom st2 inp2.roomId = some room2 →
      room1.basePrice = room2.basePrice → room1.seasonalPricing = room2.seasonalPricing →
      inp1.checkInDate = inp2.checkInDate → inp1.checkOutDate = inp2.checkOutDate →
      (createBookingRequest st1 inp1 now g1).resp = Except.ok b1 →
      (createBookingRequest st2 inp2 now g2).resp = Except.ok b2 →
      b1.roomRate = b2.roomRate ∧ b1.numberOfNights = b2.numberOfNights ∧
      b1.subtotal = b2.subtotal ∧ b1.taxes = b2.taxes ∧ b1.totalAmount = b2.totalAmount) ∧
    (∀ st1 st2 inp1 inp2 (now : Int) g1 g2 pay1 pay2 room1 room2 b1 b2,
      findRoom st1 inp1.roomId = some room1 → findRoom st2 inp2.roomId = some room2 →
      room1.basePrice = room2.basePrice → room1.seasonalPricing = room2.seasonalPricing →
      inp1.checkInDate = inp2.checkInDate → inp1.checkOutDate = inp2.checkOutDate →
      (createBooking st1 inp1 now g1 pay1).resp = Except.ok b1 →
      (createBooking st2 inp2 now g2 pay2).resp = Except.ok b2 →
      b1.roomRate = b2.roomRate ∧ b1.numberOfNights = b2.numberOfNights ∧
      b1.subtotal = b2.subtotal ∧ b1.taxes = b2.taxes ∧ b1.totalAmount = b2.totalAmount) := by
  constructor
  · intro st1 st2 inp1 inp2 now g1 g2 room1 room2 b1 b2 hr1 hr2 hbase hseason hci hco h1 h2
    obtain ⟨hn1, hpos1, hrate1, hsub1, htax1, htot1⟩ := pricing_of_request_ok hr1 h1
    obtain ⟨hn2, hpos2, hrate2, hsub2, htax2, htot2⟩ := pricing_of_request_ok hr2 h2
    have hrate : b1.roomRate = b2.roomRate := by
      rw [hrate1, hrate2]
      exact currentPrice_congr now hbase hseason
    have hn : b1.numberOfNights = b2.numberOfNights := by
      rw [hn1, hn2]
      unfold numberOfNightsCalc
      rw [hci, hco]
    refine ⟨hrate, hn, ?_, ?_, ?_⟩
    · rw [hsub1, hsub2, hrate, hn]
    · rw [htax1, htax2, hsub1, hsub2, hrate, hn]
    · rw [htot1, htot2, htax1, htax2, hsub1, hsub2, hrate, hn]
  · intro st1 st2 inp1 inp2 now g1 g2 pay1 pay2 room1 room2 b1 b2 hr1 hr2 hbase hseason hci hco h1 h2
    obtain ⟨hn1, hpos1, hrate1, hsub1, htax1, htot1⟩ := pricing_of_create_ok hr1 h1
    obtain ⟨hn2, hpos2, hrate2, hsub2, htax2, htot2⟩ := pricing_of_create_ok hr2 h2
    have hrate : b1.roomRate = b2.roomRate := by
      rw [hrate1, hrate2]
      exact currentPrice_congr now hbase hseason
    have hn : b1.numberOfNights = b2.numberOfNights := by
      rw [hn1, hn2]
      unfold numberOfNightsCalc
      rw [hci, hco]
    refine ⟨hrate, hn, ?_, ?_, ?_⟩
    · rw [hsub1, hsub2, hrate, hn]
    · rw [htax1, htax2, hsub1, hsub2, hrate, hn]
    · rw [htot1, htot2, htax1, htax2, hsub1, hsub2, hrate, hn]

/-- C6 witness: two creations sharing snapshot, dates and evaluation
time but different guests and randomness store identical pricing. -/
theorem C6_witness :
    demoCreated.roomRate = demoCreatedOther.roomRate ∧
    demoCreated.numberOfNights = demoCreatedOther.numberOfNights ∧
    demoCreated.subtotal = demoCreatedOther.subtotal ∧
    demoCreated.taxes = demoCreatedOther.taxes ∧
    demoCreated.totalAmount = demoCreatedOther.totalAmount :=
  C6_price_determinism_given_now.1 demoState demoState demoInp demoInpOther 0 demoGen demoGen2
    demoRoom demoRoom demoCreated demoCreatedOther rfl rfl rfl rfl rfl rfl (by rfl) (by rfl)

/-- C7 (code bug): with a confirmation code, `GET /:bookingNumber` looks
the reservation up by both fields — a wrong code yields nothing; but
WITHOUT a code the handler looks up by booking number alone and returns
the reservation although no authentication middleware is mounted and the
caller's authentication flag is never consulted, contradicting the
route's own `@access` comment and the spec. -/
theorem C7_unauthenticated_lookup :
    getBooking demoCancelState "OVH2025000001" none false = Except.ok demoCancelBooking ∧
    getBooking demoCancelState "OVH2025000001" (some "WRONGCOD") false =
      Except.error Err.notFound ∧
    getBooking demoCancelState "OVH2025000001" (some "CODE1234") false =
      Except.ok demoCancelBooking := by
  refine ⟨?_, ?_, ?_⟩ <;> rfl

/-- The duplicate-key failure path of the request-creation route: when
every guard passes but the save hits the unique index, the handler
returns the duplicate-key error and the store is unchanged. -/
theorem createBookingRequest_saveFail (st : State) (inp : BookingInput) (now : Int)
    (g : GenInput) (room : Room) (e : Err)
    (hvalid : validOccupancyInput inp = true)
    (hdates : ¬ inp.checkOutDate ≤ inp.checkInDate)
    (hpast : ¬ inp.checkInDate < now)
    (hroom : findRoom st inp.roomId = some room)
    (hactive : room.isActive = true)
    (hcap : ¬ room.maxOccupancy < inp.adults + inp.children)
    (havail : isAvailable room st.bookings inp.checkInDate inp.checkOutDate = true)
    (hsave : saveNewBooking st (preValidate (buildRequestBooking st inp now room) g) =
      Except.error e) :
    createBookingRequest st inp now g = ⟨Except.error e, st⟩ := by
  unfold createBookingRequest
  rw [if_neg (by simp [hvalid]), if_neg (by simpa using hdates),
    if_neg (by simpa using hpast), hroom]
  dsimp only
  rw [if_neg (by simp [hactive]), if_neg (by simpa using hcap),
    if_neg (by simp [havail]), hsave]

set_option maxRecDepth 4000 in
/-- C8 counterexample: the claim says generated identifiers are checked
against the store and regenerated on collision so persistence never
fails with a duplicate-key error; but a creation whose random draw
collides with the stored booking number fails with exactly that error —
the hook performs no uniqueness check and no retry. -/
theorem C8_counterexample :
    (createBookingRequest demoDupState demoInp 0 demoGen).resp =
      Except.error Err.duplicateKey ∧
    (createBookingRequest demoDupState demoInp 0 demoGen).state = demoDupState := by
  have h := createBookingRequest_saveFail demoDupState demoInp 0 demoGen demoRoom
    Err.duplicateKey
    (by decide) (by decide) (by decide) (by rfl) (by rfl) (by decide) (by decide)
    (by with_unfolding_all decide)
  rw [h]
  exact ⟨rfl, rfl⟩

/-- C8 amended: the pre-validate hook fills `bookingNumber` and
`confirmationCode` from its random draws without consulting the store
and without retrying; uniqueness is enforced only by the unique indexes
at save time, so persistence fails with a duplicate-key error exactly
when a stored reservation already carries the generated booking number
or confirmation code, and such a failure writes nothing. -/
theorem C8_no_uniqueness_check :
    (∀ (st : State) (b : Booking),
      saveNewBooking st b = Except.error Err.duplicateKey ↔
        ∃ x ∈ st.bookings,
          x.bookingNumber = b.bookingNumber ∨ x.confirmationCode = b.confirmationCode) ∧
    (∀ st inp now g, (createBookingRequest st inp now g).resp = Except.error Err.duplicateKey →
      (createBookingRequest st inp now g).state = st) ∧
    (∀ st inp now g pay, (createBooking st inp now g pay).resp = Except.error Err.duplicateKey →
      (createBooking st inp now g pay).state = st) := by
  refine ⟨?_, ?_, ?_⟩
  · intro st b
    unfold saveNewBooking
    split
    · rename_i hcond
      simp only [List.any_eq_true, Bool.or_eq_true, beq_iff_eq] at hcond
      exact iff_of_true rfl hcond
    · rename_i hcond
      constructor
      · intro h
        exact absurd h (by simp)
      · intro hex
        exfalso
        apply hcond
        simp only [List.any_eq_true, Bool.or_eq_true, beq_iff_eq]
        exact hex
  · intro st inp now g h
    rcases createBookingRequest_state_or st inp now g with hst | ⟨b, hok⟩
    · exact hst
    · rw [hok] at h
      exact absurd h (by simp)
  · intro st inp now g pay h
    rcases createBooking_state_or st inp now g pay with hst | ⟨b, hok⟩
    · exact hst
    · rw [hok] at h
      exact absurd h (by simp)

set_option maxRecDepth 4000 in
/-- C8 witness: at the colliding store the duplicate-key failure indeed
writes nothing, and the save-failure characterization holds there. -/
theorem C8_witness :
    (createBookingRequest demoDupState demoInp 0 demoGen).state = demoDupState ∧
    saveNewBooking demoDupState demoCreated = Except.error Err.duplicateKey := by
  constructor
  · refine C8_no_uniqueness_check.2.1 demoDupState demoInp 0 demoGen ?_
    rw [createBookingRequest_saveFail demoDupState demoInp 0 demoGen demoRoom
      Err.duplicateKey
      (by decide) (by decide) (by decide) (by rfl) (by rfl) (by decide) (by decide)
      (by with_unfolding_all decide)]
  · exact (C8_no_uniqueness_check.1 demoDupState demoCreated).mpr
      ⟨demoDupBooking, by simp [demoDupState], Or.inl (by with_unfolding_all decide)⟩

theorem insertKey_mem (k : Int) (l : List Int) (x : Int) :
    x ∈ insertKey k l ↔ x = k ∨ x ∈ l := by
  induction l with
  | nil => simp [insertKey]
  | cons a as ih =>
    unfold insertKey
    split
    · simp
    · split
      · rename_i hlt heq
        subst heq
        simp only [List.mem_cons]
        tauto
      · simp only [List.mem_cons, ih]
        tauto

theorem insertKey_sorted (k : Int) (l : List Int)
    (h : l.Pairwise (fun a b => a < b)) :
    (insertKey k l).Pairwise (fun a b => a < b) := by
  induction l with
  | nil => simp [insertKey]
  | cons a as ih =>
    rw [List.pairwise_cons] at h
    obtain ⟨ha, hp⟩ := h
    unfold insertKey
    split
    · rename_i hlt
      rw [List.pairwise_cons]
      refine ⟨?_, ?_⟩
      · intro x hx
        rcases List.mem_cons.mp hx with rfl | hx2
        · exact hlt
        · exact lt_trans hlt (ha x hx2)
      · rw [List.pairwise_cons]
        exact ⟨ha, hp⟩
    · split
      · rw [List.pairwise_cons]
        exact ⟨ha, hp⟩
      · rename_i hlt heq
        rw [List.pairwise_cons]
        refine ⟨?_, ih hp⟩
        intro x hx
        rcases (insertKey_mem k as x).mp hx with rfl | hx2
        · omega
        · exact ha x hx2

theorem sortedKeys_sorted (l : List Int) :
    (sortedKeys l).Pairwise (fun a b => a < b) := by
  induction l with
  | nil => simp [sortedKeys]
  | cons a as ih => exact insertKey_sorted a _ ih

theorem sortedKeys_mem (l : List Int) (x : Int) :
    x ∈ sortedKeys l ↔ x ∈ l := by
  induction l with
  | nil => simp [sortedKeys]
  | cons a as ih =>
    show x ∈ insertKey a (sortedKeys as) ↔ _
    rw [insertKey_mem]
    simp [ih]

/-- C9: the revenue report contains one record per calendar day of
`checkInDate` among the reservations whose status is `Confirmed`,
`Checked In` or `Checked Out` with check-in inside `[start, end]`; each
record carries that day's reservation count (positive), the summed
`totalAmount` as revenue, and the average `roomRate`; the records are in
strictly ascending chronological order; every matching reservation is
covered by a record; and the whole-window summary reports
`averageBookingValue = 0` when the window has no matching bookings. -/
theorem C9_revenue_report (bookings : List Booking) (startDate endDate : Int) :
    (generateRevenueReport bookings startDate endDate).Pairwise
      (fun r s => r.period < s.period) ∧
    (∀ r ∈ generateRevenueReport bookings startDate endDate,
      0 < r.bookingsCount ∧
      r.bookingsCount = ((bookings.filter (matchesReport startDate endDate)).filter
        (fun b => dayKey b.checkInDate == r.period)).length ∧
      r.totalRevenue = (((bookings.filter (matchesReport startDate endDate)).filter
        (fun b => dayKey b.checkInDate == r.period)).map Booking.totalAmount).sum ∧
      r.averageRate = (((bookings.filter (matchesReport startDate endDate)).filter
        (fun b => dayKey b.checkInDate == r.period)).map Booking.roomRate).sum /
          (r.bookingsCount : ℚ)) ∧
    (∀ b ∈ bookings, matchesReport startDate endDate b = true →
      ∃ r ∈ generateRevenueReport bookings startDate endDate,
        r.period = dayKey b.checkInDate) ∧
    (bookings.filter (matchesReport startDate endDate) = [] →
      (revenueAnalytics bookings startDate endDate).2.averageBookingValue = 0) := by
  refine ⟨?_, ?_, ?_, ?_⟩
  · unfold generateRevenueReport
    rw [List.pairwise_map]
    exact (sortedKeys_sorted _).imp (fun h => h)
  · intro r hr
    unfold generateRevenueReport at hr
    rw [List.mem_map] at hr
    obtain ⟨k, hk, rfl⟩ := hr
    rw [sortedKeys_mem, List.mem_map] at hk
    obtain ⟨b, hbmem, hbk⟩ := hk
    refine ⟨?_, rfl, rfl, rfl⟩
    have hbg : b ∈ (bookings.filter (matchesReport startDate endDate)).filter
        (fun x => dayKey x.checkInDate == k) :=
      List.mem_filter.mpr ⟨hbmem, by simp [hbk]⟩
    calc 0 < 1 := one_pos
    _ ≤ ((bookings.filter (matchesReport startDate endDate)).filter
        (fun x => dayKey x.checkInDate == k)).length :=
      List.length_pos.mpr (List.ne_nil_of_mem hbg)
  · intro b hb hm
    unfold generateRevenueReport
    refine ⟨_, List.mem_map_of_mem _ ?_, rfl⟩
    rw [sortedKeys_mem]
    exact List.mem_map_of_mem _ (List.mem_filter.mpr ⟨hb, hm⟩)
  · intro hempty
    unfold revenueAnalytics generateRevenueReport
    rw [hempty]
    rfl

/-- C9 witness: on the demo store the first record (day 1, out of input
order) counts one booking, and the empty window reports average 0. -/
theorem C9_witness :
    (∀ r ∈ generateRevenueReport demoRevBookings 0 (10 * 86400000),
      0 < r.bookingsCount) ∧
    generateRevenueReport demoRevBookings 0 (10 * 86400000) =
      [{ period := 1, totalRevenue := 336, bookingsCount := 1, averageRate := 100 },
       { period := 3, totalRevenue := 100, bookingsCount := 1, averageRate := 50 }] ∧
    (revenueAnalytics [] 0 0).2.averageBookingValue = 0 := by
  refine ⟨?_, ?_, ?_⟩
  · intro r hr
    exact ((C9_revenue_report demoRevBookings 0 (10 * 86400000)).2.1 r hr).1
  · with_unfolding_all decide
  · exact (C9_revenue_report [] 0 0).2.2.2 (by rfl)

/-- C10: a successful cancellation stores `refundAmount =
totalAmount − fee` and sets the reservation's `paymentStatus` to
`Refunded` exactly when the refund amount is positive and to `Paid` when
it is zero; and for a booking with no stored payment-intent reference
(never paid online) the external refund call is skipped entirely — the
outcome does not depend on the refund collaborator at all. -/
theorem C10_cancellation_payment_status :
    (∀ st n c reason now refundOk fee refund,
      (cancelBooking st n c reason now refundOk).resp = Except.ok (fee, refund) →
      ∃ b, st.bookings.find?
          (fun x => x.bookingNumber == n && x.confirmationCode == c) = some b ∧
        refund = b.totalAmount - calculateCancellationFee b now ∧
        ∃ b2 ∈ (cancelBooking st n c reason now refundOk).state.bookings,
          b2.id = b.id ∧ b2.status = BookingStatus.cancelled ∧
          b2.refundAmount = refund ∧
          b2.cancellationFee = calculateCancellationFee b now ∧
          b2.cancellationDate = some now ∧
          b2.paymentStatus =
            (if 0 < refund then PaymentStatus.refunded else PaymentStatus.paid)) ∧
    (∀ st n c reason now b,
      st.bookings.find? (fun x => x.bookingNumber == n && x.confirmationCode == c) = some b →
      b.stripePaymentIntentId = none →
      cancelBooking st n c reason now false = cancelBooking st n c reason now true) := by
  constructor
  · intro st n c reason now refundOk fee refund h
    cases hfind : st.bookings.find?
        (fun x => x.bookingNumber == n && x.confirmationCode == c) with
    | none =>
      rw [cancelBooking_none hfind] at h
      exact absurd h (by simp)
    | some b =>
      by_cases hg : canBeCancelled b now = true
      · by_cases hcond : (b.stripePaymentIntentId.isSome &&
            decide (0 < b.totalAmount - calculateCancellationFee b now) && !refundOk) = true
        · have hintent : b.stripePaymentIntentId.isSome = true := by
            simp only [Bool.and_eq_true] at hcond
            exact hcond.1.1
          have hpos : 0 < b.totalAmount - calculateCancellationFee b now := by
            simp only [Bool.and_eq_true, decide_eq_true_eq] at hcond
            exact hcond.1.2
          have hrf : refundOk = false := by
            simp only [Bool.and_eq_true, Bool.not_eq_true'] at hcond
            exact hcond.2
          subst hrf
          rw [cancelBooking_refundFail hfind hg hintent hpos] at h
          exact absurd h (by simp)
        · rw [cancelBooking_success hfind hg (eq_false_of_ne_true hcond)] at h
          simp only [Except.ok.injEq, Prod.mk.injEq] at h
          obtain ⟨hfee, hrefund⟩ := h
          refine ⟨b, rfl, hrefund.symm, ?_⟩
          rw [cancelBooking_success hfind hg (eq_false_of_ne_true hcond)]
          refine ⟨{ b with
              status := BookingStatus.cancelled
              cancellationReason := reason
              cancellationDate := some now
              cancellationFee := calculateCancellationFee b now
              refundAmount := b.totalAmount - calculateCancellationFee b now
              paymentStatus := if 0 < b.totalAmount - calculateCancellationFee b now
                then PaymentStatus.refunded else PaymentStatus.paid },
            ?_, rfl, rfl, hrefund, rfl, rfl, ?_⟩
          · show _ ∈ (updateBooking st _).bookings
            unfold updateBooking
            have hmm := List.mem_map_of_mem
              (fun x => if x.id == b.id then
                { b with
                  status := BookingStatus.cancelled
                  cancellationReason := reason
                  cancellationDate := some now
                  cancellationFee := calculateCancellationFee b now
                  refundAmount := b.totalAmount - calculateCancellationFee b now
                  paymentStatus := if 0 < b.totalAmount - calculateCancellationFee b now
                    then PaymentStatus.refunded else PaymentStatus.paid }
                else x)
              (List.mem_of_find?_eq_some hfind)
            simpa using hmm
          · rw [hrefund]
      · rw [cancelBooking_guard hfind (eq_false_of_ne_true hg)] at h
        exact absurd h (by simp)
  · intro st n c reason now b hfind hps
    by_cases hg : canBeCancelled b now = true
    · have hc0 : (b.stripePaymentIntentId.isSome &&
          decide (0 < b.totalAmount - calculateCancellationFee b now) && !false) = false := by
        rw [hps]
        rfl
      have hc1 : (b.stripePaymentIntentId.isSome &&
          decide (0 < b.totalAmount - calculateCancellationFee b now) && !true) = false := by
        rw [hps]
        rfl
      rw [cancelBooking_success hfind hg hc0, cancelBooking_success hfind hg hc1]
    · rw [cancelBooking_guard hfind (eq_false_of_ne_true hg),
        cancelBooking_guard hfind (eq_false_of_ne_true hg)]

/-- C10 witness: cancelling the never-paid demo booking does not consult
the refund collaborator, succeeds, and marks it `Refunded`. -/
theorem C10_witness :
    cancelBooking demoCancelState "OVH2025000001" "CODE1234" none 0 false =
      cancelBooking demoCancelState "OVH2025000001" "CODE1234" none 0 true ∧
    (cancelBooking demoCancelState "OVH2025000001" "CODE1234" none 0 false).state.bookings.map
      Booking.paymentStatus = [PaymentStatus.refunded] := by
  constructor
  · exact C10_cancellation_payment_status.2 demoCancelState "OVH2025000001" "CODE1234"
      none 0 demoCancelBooking (by rfl) (by rfl)
  · with_unfolding_all decide

end OldVine
